import Mathlib

/-!
A formal model of the `prefrontal_cortex_chatter` plugin: the per-user
conversation loop, its session/observation data model, the reply checker, the
action planner, the waiter and the loop manager, shallowly embedded as pure
Lean functions translated from the Python sources (`models.py`, `session.py`,
`conversation_loop.py`, `replyer.py`, `planner.py`, `waiter.py`, `plugin.py`,
`shared.py`, `utils.py`).  Timestamps are modelled as rationals, Python dicts
as structures, asynchronous interleavings as explicit per-iteration inputs,
and the external LLM transport as an oracle datatype enumerating its observable
behaviours.
-/

namespace PFC

/-- A `sender` sub-dict as expected by `ReplyChecker._get_recent_bot_messages`
(`replyer.py` reads `msg.get("sender", {}).get("user_id")`).  No producer in
the repository ever writes this key, but the dict shape allows it. -/
structure Sender where
  user_id : String
  nickname : String
deriving Repr, DecidableEq

/-- A well-formed chat message dict.  `session.add_user_message` produces
`{"type": "user_message", "content", "user_name", "user_id", "time"}` and
`session.add_bot_message` produces `{"type": "bot_message", "content",
"time"}`; keys absent from a given producer are modelled by `""` / `none`
(matching the `.get` defaults used at every read site). -/
structure Message where
  mtype : String
  content : String
  user_name : String
  user_id : String
  time : ℚ
  sender : Option Sender
  processed_plain_text : Option String
deriving Repr, DecidableEq

/-- The message dict built by `PFCSession.add_user_message` (session.py). -/
def mkUserMessage (content user_name user_id : String) (t : ℚ) : Message :=
  { mtype := "user_message", content := content, user_name := user_name,
    user_id := user_id, time := t, sender := none, processed_plain_text := none }

/-- The message dict built by `PFCSession.add_bot_message` (session.py):
only `type`, `content` and `time` keys — in particular no `sender` key. -/
def mkBotMessage (content : String) (t : ℚ) : Message :=
  { mtype := "bot_message", content := content, user_name := "",
    user_id := "", time := t, sender := none, processed_plain_text := none }

/-- A goal dict `{goal, reasoning}` (models.py `GoalItem` / raw dicts). -/
structure GoalItem where
  goal : String
  reasoning : String
deriving Repr, DecidableEq

/-- An action-history record (models.py `ActionRecord` / the raw dicts used by
`conversation_loop.py`): `status ∈ {start, done, recall}`. -/
structure ActionRecord where
  action : String
  plan_reason : String
  status : String
  time : String
  final_reason : Option String
deriving Repr, DecidableEq

/-- A knowledge item dict as appended by `_handle_fetch_knowledge`. -/
structure KnowledgeItem where
  query : String
  knowledge : String
  source : String
  time : ℚ
deriving Repr, DecidableEq

/-- `ObservationInfo` (models.py): the message-observation half of a session. -/
structure ObservationInfo where
  chat_history : List Message
  chat_history_str : String
  chat_history_count : ℕ
  unprocessed_messages : List Message
  new_messages_count : ℕ
  last_message_time : Option ℚ
  last_message_sender : Option String
  last_message_content : String
deriving Repr, DecidableEq

/-- The empty `ObservationInfo()` constructed by the dataclass defaults. -/
def ObservationInfo.empty : ObservationInfo :=
  { chat_history := [], chat_history_str := "", chat_history_count := 0,
    unprocessed_messages := [], new_messages_count := 0,
    last_message_time := none, last_message_sender := none,
    last_message_content := "" }

/-- `ConversationInfo` (models.py): decision-related session state. -/
structure ConversationInfo where
  done_action : List ActionRecord
  goal_list : List GoalItem
  knowledge_list : List KnowledgeItem
  last_successful_reply_action : Option String
deriving Repr, DecidableEq

/-- The empty `ConversationInfo()` of the dataclass defaults. -/
def ConversationInfo.empty : ConversationInfo :=
  { done_action := [], goal_list := [], knowledge_list := [],
    last_successful_reply_action := none }

/-- Python `l[-n:]` for `n > 0`: the last `n` elements of `l`. -/
def takeLast {α : Type} (n : ℕ) (l : List α) : List α :=
  l.drop (l.length - n)

/-!
Computable character-list models of the Python string primitives the sources
use (`in`, `.strip()`, `.lower()`, `.endswith()`, `[:-1]`, `[:n]`,
`.split(c)`, `.replace(a, b)`).
-/

/-- `pat` is a leading segment of `s` (over character lists). -/
def leadsWith : List Char → List Char → Bool
  | [], _ => true
  | _ :: _, [] => false
  | a :: as, b :: bs => a = b && leadsWith as bs

/-- `pat` occurs as a contiguous segment of `s`. -/
def hasSub (pat : List Char) : List Char → Bool
  | [] => pat.isEmpty
  | c :: rest => leadsWith pat (c :: rest) || hasSub pat rest

/-- Python `pat in s`. -/
def strContains (s pat : String) : Bool :=
  hasSub pat.data s.data

/-- Python `s.strip()` (ASCII whitespace). -/
def pyStrip (s : String) : String :=
  String.mk (((s.data.dropWhile Char.isWhitespace).reverse.dropWhile
    Char.isWhitespace).reverse)

/-- Python `s.lower()`. -/
def pyLower (s : String) : String :=
  String.mk (s.data.map Char.toLower)

/-- Python `s.endswith(suf)`. -/
def pyEndsWith (s suf : String) : Bool :=
  leadsWith suf.data.reverse s.data.reverse

/-- Python `s[:-1]`. -/
def pyDropLast (s : String) : String :=
  String.mk s.data.dropLast

/-- Python `s[:n]`. -/
def pyTake (s : String) (n : ℕ) : String :=
  String.mk (s.data.take n)

/-- Split a character list at every occurrence of `c`. -/
def splitOnCharAux (c : Char) : List Char → List (List Char)
  | [] => [[]]
  | x :: xs =>
    let r := splitOnCharAux c xs
    if x = c then [] :: r
    else match r with
      | h :: t => (x :: h) :: t
      | [] => [[x]]

/-- Python `s.split(c)` for a single separator character. -/
def splitOnChar (c : Char) (s : String) : List String :=
  (splitOnCharAux c s.data).map String.mk

/-- One fuel-bounded step list of Python `s.replace(pat, rep)`; the fuel is the
length of `s`, which suffices because each step consumes at least one
character (`pat` nonempty at the only call site). -/
def replaceAllAux (pat rep : List Char) : ℕ → List Char → List Char
  | 0, s => s
  | _ + 1, [] => []
  | fuel + 1, c :: rest =>
    if leadsWith pat (c :: rest) then
      rep ++ replaceAllAux pat rep fuel ((c :: rest).drop pat.length)
    else c :: replaceAllAux pat rep fuel rest

/-- Python `s.replace(pat, rep)` for nonempty `pat`. -/
def replaceAll (s pat rep : String) : String :=
  String.mk (replaceAllAux pat.data rep.data s.data.length s.data)

/-- Environment of ambient facilities read by the formatting code: the wall
clock `time.time()`, the configured bot nickname `global_config.bot.nickname`,
and `time.strftime`/`localtime` rendering (OS/timezone dependent, so kept as a
parameter) used for timestamps older than two days. -/
structure FmtEnv where
  now : ℚ
  botName : String
  absTime : ℚ → String

/-- `shared.translate_timestamp` in `"relative"` mode (shared.py), also the
body of `PFCSession._translate_timestamp` (session.py) and
`ActionPlanner._translate_timestamp` (planner.py): bucket the age of a
timestamp into a human-readable relative phrase.  Python `int(x)` on the
nonnegative differences involved is floor. -/
def translateTimestamp (env : FmtEnv) (ts : ℚ) : String :=
  let diff := env.now - ts
  if diff < 20 then "刚刚"
  else if diff < 60 then toString ⌊diff⌋ ++ "秒前"
  else if diff < 3600 then toString ⌊diff / 60⌋ ++ "分钟前"
  else if diff < 86400 then toString ⌊diff / 3600⌋ ++ "小时前"
  else if diff < 86400 * 2 then toString ⌊diff / 86400⌋ ++ "天前"
  else env.absTime ts

/-- `shared.format_chat_history`, restricted to its `truncate=False` call from
`ObservationInfo.clear_unprocessed_messages`: format one message into header /
content / blank-line blocks, skipping entries whose `type` is neither
`user_message` nor `bot_message`. -/
def formatMessageBlock (env : FmtEnv) (bot_name user_name : String)
    (msg : Message) : List String :=
  let content := pyStrip msg.content
  let readable := translateTimestamp env msg.time
  if msg.mtype = "user_message" then
    let header := readable ++ " " ++
      (if msg.user_name = "" then user_name else msg.user_name) ++ " 说:"
    header :: (if content = "" then [""]
      else if pyEndsWith content "）" then [content, ""]
      else [(if pyEndsWith content "。" then pyDropLast content else content) ++ ";", ""])
  else if msg.mtype = "bot_message" then
    let header := readable ++ " " ++ bot_name ++ "(你) 说:"
    header :: (if content = "" then [""]
      else if pyEndsWith content "）" then [content, ""]
      else [(if pyEndsWith content "。" then pyDropLast content else content) ++ ";", ""])
  else []

/-- `shared.format_chat_history` (shared.py) with `truncate=False`. -/
def format_chat_history (env : FmtEnv) (chat_history : List Message)
    (bot_name user_name : String) (max_messages : ℕ) : String :=
  if chat_history = [] then "还没有聊天记录。"
  else
    let slice := takeLast max_messages chat_history
    let formatted := slice.flatMap (formatMessageBlock env bot_name user_name)
    let s := pyStrip (String.intercalate "\n" formatted)
    if s = "" then "还没有聊天记录。" else s

/-- `ObservationInfo.clear_unprocessed_messages` (models.py lines 195-217):
merge `unprocessed_messages` into `chat_history` (keeping at most the last 100
entries), rebuild `chat_history_str` from the last 20 entries, empty the
unprocessed list, and zero `new_messages_count`.  A no-op when there is
nothing unprocessed. -/
def clear_unprocessed_messages (env : FmtEnv) (o : ObservationInfo) :
    ObservationInfo :=
  if o.unprocessed_messages = [] then o
  else
    let merged := o.chat_history ++ o.unprocessed_messages
    let hist := if merged.length > 100 then takeLast 100 merged else merged
    { o with
      chat_history := hist,
      chat_history_str :=
        format_chat_history env (takeLast 20 hist) env.botName "用户" 20,
      unprocessed_messages := [],
      new_messages_count := 0,
      chat_history_count := hist.length }

/-- `PFCSession._trim_history` (session.py): cap `chat_history` at
`MAX_HISTORY_SIZE = 100` entries, oldest dropped. -/
def trim_history (o : ObservationInfo) : ObservationInfo :=
  if o.chat_history.length > 100 then
    { o with chat_history := takeLast 100 o.chat_history,
             chat_history_count := (takeLast 100 o.chat_history).length }
  else o

/-- `PFCSession.clear_unprocessed_messages` (session.py): the observation-level
merge followed by `_trim_history`. -/
def session_clear_unprocessed_messages (env : FmtEnv) (o : ObservationInfo) :
    ObservationInfo :=
  trim_history (clear_unprocessed_messages env o)

/-- Left-pad a digit string with `0` characters up to width `n`. -/
def padZeros (s : String) (n : ℕ) : String :=
  String.mk (List.replicate (n - s.length) '0') ++ s

/-- Round a rational to the nearest integer, ties to even — the rounding rule
of Python's fixed-point string formatting (modelled on exact rationals; the
source rounds the nearest binary double, which agrees except on values within
double-rounding distance of a tie). -/
def roundHalfEven (q : ℚ) : ℤ :=
  let f := ⌊q⌋
  let r := q - f
  if r < 1/2 then f
  else if 1/2 < r then f + 1
  else if f % 2 = 0 then f else f + 1

/-- Python `f"{q:.Nf}"` fixed-point rendering for nonnegative `q` (all uses in
the sources format nonnegative durations and ratios). -/
def fmtFixed (q : ℚ) (dp : ℕ) : String :=
  let scaled := (roundHalfEven (q * (10 : ℚ) ^ dp)).toNat
  if dp = 0 then toString scaled
  else toString (scaled / 10 ^ dp) ++ "." ++ padZeros (toString (scaled % 10 ^ dp)) dp

/-- `PFCSession.add_bot_message` (session.py lines 207-246), effect on the
observation info: append a `{"type": "bot_message", "content", "time"}` dict
to `chat_history`, bump the count, append a formatted block to
`chat_history_str`, and trim the history to 100 entries. -/
def add_bot_message (env : FmtEnv) (o : ObservationInfo) (content : String)
    (t : ℚ) : ObservationInfo :=
  let o' := { o with
    chat_history := o.chat_history ++ [mkBotMessage content t],
    chat_history_count := o.chat_history_count + 1 }
  let stripped := pyStrip content
  let stripped := if pyEndsWith stripped "。" then pyDropLast stripped else stripped
  let block := translateTimestamp env t ++ " " ++ env.botName ++ "(你) 说:\n" ++
    stripped ++ ";\n"
  trim_history { o' with chat_history_str :=
    if o'.chat_history_str = "" then block else o'.chat_history_str ++ "\n" ++ block }

/-- The goal keywords that `PFCSession._clear_timeout_goals` treats as marking
a wait-timeout goal. -/
def timeoutKeywords : List String :=
  ["分钟，思考接下来要做什么", "分钟，注意可能在对方看来聊天已经结束",
   "对方似乎话说一半突然消失了"]

/-- `PFCSession._clear_timeout_goals` (session.py): drop goals whose text
contains a timeout keyword. -/
def clear_timeout_goals (c : ConversationInfo) : ConversationInfo :=
  { c with goal_list :=
      c.goal_list.filter (fun g => ¬ timeoutKeywords.any (fun k => strContains g.goal k)) }

/-- The mutable per-conversation state read and written by one
`ConversationLoop` (conversation_loop.py together with its `PFCSession`):
the session fields the loop touches plus the loop's `asyncio.Event`
interrupt flag (`_interrupt_event.is_set()`). -/
structure LoopState where
  should_continue : Bool
  ignore_until_timestamp : Option ℚ
  conversation_info : ConversationInfo
  observation_info : ObservationInfo
  interrupt_event : Bool
deriving Repr, DecidableEq

/-- `PFCSession.add_user_message` (session.py lines 126-161), the message
ingestion path: append to `unprocessed_messages`, bump `new_messages_count`,
record last-message metadata, and clear stale timeout goals. -/
def add_user_message (s : LoopState) (content user_name user_id : String)
    (t : ℚ) : LoopState :=
  let o := s.observation_info
  { s with
    observation_info := { o with
      unprocessed_messages := o.unprocessed_messages ++ [mkUserMessage content user_name user_id t],
      new_messages_count := o.new_messages_count + 1,
      last_message_time := some t,
      last_message_sender := some user_id,
      last_message_content := content },
    conversation_info := clear_timeout_goals s.conversation_info }

/- ## Reply checker (`replyer.py`, class `ReplyChecker`) -/

/-- `ReplyCheckerConfig` (plugin.py / config.py), with the source defaults. -/
structure ReplyCheckerConfig where
  enabled : Bool
  use_llm_check : Bool
  similarity_threshold : ℚ
  max_retries : ℕ
deriving Repr, DecidableEq

/-- The dataclass defaults of `ReplyCheckerConfig`. -/
def ReplyCheckerConfig.default : ReplyCheckerConfig :=
  { enabled := true, use_llm_check := true, similarity_threshold := 9/10,
    max_retries := 3 }

/-- The `inappropriate_patterns` list of `ReplyChecker.check`. -/
def inappropriatePatterns : List String :=
  ["作为AI", "作为一个AI", "作为人工智能", "我是AI", "我是一个AI", "我是人工智能",
   "抱歉，我无法", "对不起，我不能"]

/-- `msg.get("processed_plain_text", msg.get("content", ""))`. -/
def msgDisplayContent (m : Message) : String :=
  m.processed_plain_text.getD m.content

/-- `str(msg.get("sender", {}).get("user_id", ""))`. -/
def msgSenderUserId (m : Message) : String :=
  (m.sender.map Sender.user_id).getD ""

/-- Loop body of `ReplyChecker._get_recent_bot_messages`: walk messages (already
reversed), collecting the nonempty contents of messages whose
`sender.user_id` equals the bot's QQ account, breaking once two are found. -/
def getRecentBotMessagesAux (botQQ : String) :
    List Message → List String → List String
  | [], acc => acc
  | m :: rest, acc =>
    let acc' := if msgSenderUserId m = botQQ ∧ msgDisplayContent m ≠ "" then
        acc ++ [msgDisplayContent m] else acc
    if acc'.length ≥ 2 then acc' else getRecentBotMessagesAux botQQ rest acc'

/-- `ReplyChecker._get_recent_bot_messages` (replyer.py lines 887-904). -/
def get_recent_bot_messages (botQQ : String) (chat_history : List Message) :
    List String :=
  getRecentBotMessagesAux botQQ chat_history.reverse []

/-- The `suitable` field of the LLM check's JSON response as read by
`_parse_llm_response` through `result.get("suitable", None)`: a JSON bool, a
string, or absent.  (Other JSON types are not produced by the prompt contract
and are not modelled.) -/
inductive JsonBoolField
  | jtrue
  | jfalse
  | jstr (s : String)
  | missing
deriving Repr, DecidableEq

/-- Observable behaviour of one LLM reply-check round trip
(`ReplyChecker._llm_check`'s interaction with `llm_api`): no `utils` model
configured, transport failure / empty content, an exception, a response whose
JSON object was extracted (with optional `suitable` / `reason` /
`need_replan` fields), or a response from which no JSON object could be
extracted at all (which `_parse_llm_response` hands to `_fallback_parse`). -/
inductive LlmCheckBehavior
  | noModel
  | callFailed
  | raised (e : String)
  | respObj (suitable : JsonBoolField) (reason : Option String) (need_replan : Bool)
  | respUnparseable (content : String)
deriving Repr, DecidableEq

/-- `ReplyChecker._fallback_parse` (replyer.py lines 1038-1043).  Note that it
ignores `retry_count` entirely. -/
def fallback_parse (content : String) (_retry_count : ℕ) :
    Bool × String × Bool :=
  let lower := pyLower content
  let is_suitable := !(strContains lower "不合适") && !(strContains lower "违规")
  let reason := if content = "" then "无法解析响应" else pyTake content 100
  let need_replan := strContains lower "重新规划" || strContains lower "目标不适合"
  (is_suitable, reason, need_replan)

/-- `ReplyChecker._parse_llm_response` (replyer.py lines 990-1036) after JSON
extraction succeeded. -/
def parse_llm_response (maxRetries : ℕ) (suitable : JsonBoolField)
    (reason : Option String) (need_replan : Bool) (retry_count : ℕ) :
    Bool × String × Bool :=
  let reasonS := reason.getD "未提供原因"
  let s : Bool := match suitable with
    | .jtrue => true
    | .jfalse => false
    | .jstr v => pyLower v == "true"
    | .missing => !(strContains (pyLower reasonS) "不合适") && !(strContains (pyLower reasonS) "违规")
  if ¬ s ∧ retry_count < maxRetries then (false, reasonS, false)
  else if ¬ s ∧ retry_count ≥ maxRetries then
    (false, "多次重试后仍不合适: " ++ reasonS, true)
  else (s, reasonS, need_replan)

/-- `ReplyChecker._llm_check` (replyer.py lines 906-988), with the transport
and JSON layer abstracted into `LlmCheckBehavior`. -/
def llm_check (maxRetries : ℕ) (behavior : LlmCheckBehavior)
    (retry_count : ℕ) : Bool × String × Bool :=
  match behavior with
  | .noModel => (true, "LLM 检查跳过（无模型配置）", false)
  | .callFailed => (true, "LLM 检查跳过（调用失败）", false)
  | .raised e =>
    if retry_count ≥ maxRetries then (false, "多次检查失败，建议重新规划", true)
    else (false, "检查过程出错，建议重试: " ++ e, false)
  | .respObj suitable reason need_replan =>
    parse_llm_response maxRetries suitable reason need_replan retry_count
  | .respUnparseable content => fallback_parse content retry_count

/-- The rejection reason for an exact duplicate of the previous bot message. -/
def exactDupReason : String :=
  "被逻辑检查拒绝：回复内容与你上一条发言完全相同，可以选择深入话题或寻找其它话题或等待"

/-- The rejection reason for a highly similar reply (with the formatted ratio). -/
def similarDupReason (ratio : ℚ) : String :=
  "被逻辑检查拒绝：回复内容与你上一条发言高度相似 (相似度 " ++ fmtFixed ratio 2 ++
  ")，可以选择深入话题或寻找其它话题或等待。"

/-- The tail of `ReplyChecker.check` after the similarity section: optional LLM
check, else accept (with a special reason once retries are exhausted). -/
def checkTail (cfg : ReplyCheckerConfig) (llm : LlmCheckBehavior)
    (retry_count : ℕ) : Bool × String × Bool :=
  if cfg.use_llm_check then llm_check cfg.max_retries llm retry_count
  else if retry_count ≥ cfg.max_retries then (true, "重试次数过多，接受当前回复", false)
  else (true, "回复检查通过", false)

/-- `ReplyChecker.check` (replyer.py lines 793-885).  `botQQ` is
`str(global_config.bot.qq_account)`; `sim` models
`difflib.SequenceMatcher(None, a, b).ratio()` (an external library function,
kept as a parameter); `llm` is the behaviour of the optional LLM check. -/
def ReplyChecker.check (cfg : ReplyCheckerConfig) (botQQ : String)
    (sim : String → String → ℚ) (llm : LlmCheckBehavior)
    (reply _goal : String) (chat_history : List Message) (retry_count : ℕ) :
    Bool × String × Bool :=
  if ¬ cfg.enabled then (true, "检查器已禁用，直接通过", false)
  else if reply = "" ∨ pyStrip reply = "" then (false, "回复为空", true)
  else if reply.length > 500 then (false, "回复过长", true)
  else match inappropriatePatterns.find? (fun p => strContains reply p) with
  | some pat => (false, "包含不当内容: " ++ pat, true)
  | none =>
    match (get_recent_bot_messages botQQ chat_history).head? with
    | some b0 =>
      if reply = b0 then (false, exactDupReason, true)
      else if sim reply b0 > cfg.similarity_threshold then
        (false, similarDupReason (sim reply b0), true)
      else checkTail cfg llm retry_count
    | none => checkTail cfg llm retry_count

/- ## Reply handler (`ConversationLoop._handle_reply_action`) -/

/-- Per-attempt environment of the reply retry loop: the value of
`_interrupt_event.is_set()` at the top of the `while` body, its value when the
`asyncio.wait` race returns, the outcome of `replyer.generate` (`error` models
an exception propagating out of the generate task, `ok ""` an empty reply),
and the outcome of `checker.check(..., retry_count = attempt - 1)` (`error`
models the checker raising). -/
structure AttemptEnv where
  interruptAtTop : Bool
  interruptAfterGen : Bool
  genResult : Except String String
  checkResult : Except String (Bool × String × Bool)

/-- The loop-carried locals of `_handle_reply_action`
(`attempt, is_suitable, need_replan, check_reason, final_reply`), plus a count
of how many generation tasks have been started. -/
structure ReplyCarry where
  attempt : ℕ
  is_suitable : Bool
  need_replan : Bool
  check_reason : String
  final_reply : String
  genStarts : ℕ
deriving Repr, DecidableEq

/-- The initial values set at conversation_loop.py line 281. -/
def initialReplyCarry : ReplyCarry :=
  { attempt := 0, is_suitable := false, need_replan := false,
    check_reason := "未进行尝试", final_reply := "", genStarts := 0 }

/-- How the retry `while` loop of `_handle_reply_action` exited:
`interrupted` for the two early `return False` paths guarded by
`_interrupt_event.is_set()`, `finished` for normal fall-through (suitable,
need-replan, checker exception, or attempts exhausted). -/
inductive ReplyLoopExit
  | interrupted (c : ReplyCarry)
  | finished (c : ReplyCarry)
deriving Repr, DecidableEq

/-- `attempt += 1` followed by the creation of a generation task: the
loop-carried state at the point where `asyncio.wait` races the generation
against the interrupt listener. -/
def bumpAttempt (c : ReplyCarry) : ReplyCarry :=
  { c with attempt := c.attempt + 1, genStarts := c.genStarts + 1 }

/-- The retry `while` loop of `_handle_reply_action` (conversation_loop.py
lines 286-359).  `envs k` is the environment of the `k`-th attempt (1-based);
the fuel argument equals `maxAttempts - attempt`, so fuel `0` is exactly the
`attempt < max_attempts` loop exit. -/
def replyWhile (envs : ℕ → AttemptEnv) : ℕ → ReplyCarry → ReplyLoopExit
  | 0, c => .finished c
  | fuel+1, c =>
    if c.is_suitable then .finished c
    else if (envs (c.attempt + 1)).interruptAtTop then .interrupted c
    else if (envs (c.attempt + 1)).interruptAfterGen then .interrupted (bumpAttempt c)
    else match (envs (c.attempt + 1)).genResult with
      | .error msg =>
        replyWhile envs fuel
          { bumpAttempt c with
            check_reason := "第 " ++ toString (c.attempt + 1) ++ " 次生成出错: " ++ msg }
      | .ok reply =>
        if reply = "" then
          replyWhile envs fuel
            { bumpAttempt c with
              check_reason := "第 " ++ toString (c.attempt + 1) ++ " 次生成回复为空" }
        else match (envs (c.attempt + 1)).checkResult with
          | .error msg =>
            .finished
              { bumpAttempt c with
                check_reason := "第 " ++ toString (c.attempt + 1) ++ " 次检查出错: " ++ msg }
          | .ok (suit, reason, replan) =>
            if suit then
              .finished
                { bumpAttempt c with
                  is_suitable := suit
                  check_reason := reason
                  need_replan := replan
                  final_reply := reply }
            else if replan then
              .finished
                { bumpAttempt c with
                  is_suitable := suit
                  check_reason := reason
                  need_replan := replan }
            else
              replyWhile envs fuel
                { bumpAttempt c with
                  is_suitable := suit
                  check_reason := reason
                  need_replan := replan }

/-- Inputs of `_handle_reply_action` beyond the per-attempt environments: the
interrupt flag observed by the pre-send re-check (line 363), the
`new_messages_count` read by `_check_new_messages_after_planning`, and the
wall-clock string used for the synthetic fallback record. -/
structure ReplyHandlerEnv where
  envs : ℕ → AttemptEnv
  interruptAtSend : Bool
  newCountAtSend : ℕ
  nowStr : String

/-- Observable outcome of `_handle_reply_action`: its boolean result, how many
generation tasks were started, the final update applied to
`done_action[action_index]`, the lines actually sent by `_send_reply`, the
resulting `last_successful_reply_action`, and the synthetic fallback `wait`
record appended on exhausted retries. -/
structure ReplyHandlerOut where
  success : Bool
  genStarts : ℕ
  recordStatus : String
  recordFinalReason : String
  sentLines : List String
  lsr : Option String
  fallbackWait : Bool
  fallbackRecord : Option ActionRecord
deriving Repr, DecidableEq

/-- The line splitting of `_send_reply` (conversation_loop.py line 394):
non-blank trimmed lines of the accepted reply. -/
def splitReplyLines (reply : String) : List String :=
  ((splitOnChar '\n' reply).map pyStrip).filter (fun l => l ≠ "")

/-- `ConversationLoop._handle_reply_action` (conversation_loop.py lines
276-384).  `preLsr` is the session's `last_successful_reply_action` on entry;
`maxAttempts` is `config.reply_checker.max_retries`. -/
def handle_reply_action (action_type : String) (maxAttempts : ℕ)
    (preLsr : Option String) (env : ReplyHandlerEnv) : ReplyHandlerOut :=
  match replyWhile env.envs maxAttempts initialReplyCarry with
  | .interrupted c =>
    { success := false, genStarts := c.genStarts, recordStatus := "recall",
      recordFinalReason := "被新消息中断", sentLines := [], lsr := preLsr,
      fallbackWait := false, fallbackRecord := none }
  | .finished c =>
    if c.is_suitable then
      if env.interruptAtSend then
        { success := false, genStarts := c.genStarts, recordStatus := "recall",
          recordFinalReason := "有新消息，取消发送", sentLines := [], lsr := preLsr,
          fallbackWait := false, fallbackRecord := none }
      else if env.newCountAtSend > 2 then
        { success := false, genStarts := c.genStarts, recordStatus := "recall",
          recordFinalReason := "有新消息，取消发送", sentLines := [], lsr := none,
          fallbackWait := false, fallbackRecord := none }
      else
        { success := true, genStarts := c.genStarts, recordStatus := "done",
          recordFinalReason := "成功发送: " ++ pyTake c.final_reply 30 ++ "...",
          sentLines := splitReplyLines c.final_reply, lsr := some action_type,
          fallbackWait := false, fallbackRecord := none }
    else
      let base : ReplyHandlerOut :=
        { success := false, genStarts := c.genStarts, recordStatus := "recall",
          recordFinalReason := "尝试" ++ toString c.attempt ++ "次后失败: " ++ c.check_reason,
          sentLines := [], lsr := none, fallbackWait := false, fallbackRecord := none }
      if ¬ c.need_replan then
        { base with
          fallbackWait := true
          fallbackRecord := some
            { action := "wait",
              plan_reason := "因 " ++ action_type ++ " 多次尝试失败而执行的后备等待",
              status := "done", time := env.nowStr, final_reason := none } }
      else base

/- ## The loop iteration: ignore gate and planning phase (`ConversationLoop._loop`) -/

/-- How one pass through the ignore logic (conversation_loop.py lines 146-154)
resolved: sleep-30s-and-recheck (still ignored), cleared-and-restart (the
window just expired; the iteration restarts without planning), or proceed to
planning. -/
inductive IgnoreDecision
  | sleepRetry
  | clearedRestart
  | proceed
deriving Repr, DecidableEq

/-- The ignore gate at the top of `_loop`: while `ignore_until_timestamp` lies
in the future nothing happens; once expired it is cleared, the loop is stopped
if no messages arrived during the window, and in either case the iteration
restarts (`continue`) without reaching the planner. -/
def ignoreStep (s : LoopState) (now : ℚ) : IgnoreDecision × LoopState :=
  match s.ignore_until_timestamp with
  | some t =>
    if now < t then (.sleepRetry, s)
    else
      let s' := { s with ignore_until_timestamp := none }
      if s'.observation_info.new_messages_count = 0 then
        (.clearedRestart, { s' with should_continue := false })
      else (.clearedRestart, s')
  | none => (.proceed, s)

/-- `ConversationLoop._handle_block_and_ignore` (conversation_loop.py lines
492-497): set the ignore window and stop the loop; always succeeds. -/
def handle_block_and_ignore (s : LoopState) (now blockSeconds : ℚ) :
    LoopState × Bool :=
  ({ s with ignore_until_timestamp := some (now + blockSeconds),
            should_continue := false }, true)

/-- A message arriving while the planner runs (content, user_name, user_id,
timestamp), ingested through `PFCSession.add_user_message`. -/
def ingestArrivals (s : LoopState) :
    List (String × String × String × ℚ) → LoopState
  | [] => s
  | (c, un, uid, t) :: rest => ingestArrivals (add_user_message s c un uid t) rest

/-- Environment of one planning phase: the value of
`_interrupt_event.is_set()` when the `asyncio.wait` race returns (line 174),
the planner's `(action, reason)` result, the messages ingested concurrently
while the planner ran, and the formatting environment used if unprocessed
messages get merged. -/
structure PlanPhaseEnv where
  interruptDuringPlan : Bool
  planResult : String × String
  arrivals : List (String × String × String × ℚ)
  fmt : FmtEnv

/-- Clearing `session.conversation_info.last_successful_reply_action`. -/
def clearLsr (s : LoopState) : LoopState :=
  { s with conversation_info :=
      { s.conversation_info with last_successful_reply_action := none } }

/-- The state after the interrupt event is cleared (line 158) and the messages
that arrived while the planner ran have been ingested, with the interrupt
event holding the value observed at the post-race check (line 174). -/
def planPhaseBase (s : LoopState) (env : PlanPhaseEnv) : LoopState :=
  { ingestArrivals { s with interrupt_event := false } env.arrivals with
    interrupt_event := env.interruptDuringPlan }

/-- The observation state after lines 214-216: the session-level merge of
unprocessed messages followed by `new_messages_count = 0`. -/
def mergedObs (env : PlanPhaseEnv) (o : ObservationInfo) : ObservationInfo :=
  { session_clear_unprocessed_messages env.fmt o with new_messages_count := 0 }

/-- The planning phase of one `_loop` iteration (conversation_loop.py lines
156-218): clear the interrupt event, snapshot
`initial_new_message_count = new_messages_count + 1`, run the planner racing
the interrupt listener; on interrupt cancel the planner, discard its result,
clear `last_successful_reply_action` and restart; otherwise take the planner
result, restart likewise if strictly more messages than the snapshot are now
pending, else merge unprocessed messages for reply-type actions and hand the
action to the dispatcher.  Returns the new state and `some (action, reason)`
iff an action handler is dispatched (`none` = the iteration restarts with no
dispatch). -/
def planPhase (s : LoopState) (env : PlanPhaseEnv) :
    LoopState × Option (String × String) :=
  let initial := s.observation_info.new_messages_count + 1
  let s1 := planPhaseBase s env
  if env.interruptDuringPlan then (clearLsr s1, none)
  else
    let (action, reason) := env.planResult
    if s1.observation_info.new_messages_count > initial then (clearLsr s1, none)
    else
      let s2 :=
        if initial > 0 ∧ (action = "direct_reply" ∨ action = "send_new_message") then
          { s1 with observation_info := mergedObs env s1.observation_info }
        else s1
      (s2, some (action, reason))

/-- What one whole loop iteration did: `idle` — the ignore gate short-circuited
the iteration and the planner was never invoked; `restartAfterPlan` — the
planner ran but its result was discarded (interrupt or late messages);
`dispatch` — the action was handed to its handler. -/
inductive IterOutcome
  | idle
  | restartAfterPlan
  | dispatch (action reason : String)
deriving Repr, DecidableEq

/-- One iteration of `_loop` up to (and excluding) the action handler call:
the ignore gate followed, when it falls through, by the planning phase. -/
def loopIter (s : LoopState) (now : ℚ) (env : PlanPhaseEnv) :
    LoopState × IterOutcome :=
  match ignoreStep s now with
  | (.sleepRetry, s') => (s', .idle)
  | (.clearedRestart, s') => (s', .idle)
  | (.proceed, s') =>
    match planPhase s' env with
    | (s'', none) => (s'', .restartAfterPlan)
    | (s'', some (a, r)) => (s'', .dispatch a r)

/- ## Waiter (`waiter.py`, and its copy in `conversation_loop.py`) -/

/-- The timeout goal appended by `Waiter.wait` (identical text in `waiter.py`
lines 118-125 and `conversation_loop.py` lines 54-57); `elapsed` is the
elapsed seconds, rendered as minutes with one decimal place. -/
def waitTimeoutGoal (elapsed : ℚ) : GoalItem :=
  { goal := "你等待了" ++ fmtFixed (elapsed / 60) 1 ++
      "分钟，注意可能在对方看来聊天已经结束，思考接下来要做什么",
    reasoning := "对方很久没有回复你的消息了" }

/-- `Waiter._check_new_message` (waiter.py lines 205-225 and
conversation_loop.py lines 89-95): call the injected checker for poll `k`,
returning `False` when no checker is set, and — the checker being wrapped in a
`try`/`except` — also when the checker raises. -/
def check_new_message (checker : Option (ℕ → Except String Bool)) (k : ℕ) :
    Bool :=
  match checker with
  | none => false
  | some c =>
    match c k with
    | .ok b => b
    | .error _ => false

/-- The polling loop of `Waiter.wait` (waiter.py lines 84-131 /
conversation_loop.py lines 40-60).  Poll `k` happens at elapsed time
`k * interval` seconds (time advances in the `asyncio.sleep(check_interval)`
calls; the predicate calls themselves are modelled as instantaneous).  Each
iteration first polls the predicate (returning `false` = not-timed-out on
activity), then checks `elapsed > timeout` (returning `true` and appending
exactly one timeout goal), else sleeps one interval.  The structural fuel is
only a recursion bound; `Waiter.wait` supplies enough that it is never
exhausted (see `waitAux_timeout`). -/
def waitAux (checker : Option (ℕ → Except String Bool))
    (timeout interval : ℕ) (goals : List GoalItem) :
    ℕ → ℕ → Bool × List GoalItem × ℕ
  | _, 0 => (false, goals, 0)
  | k, fuel+1 =>
    if check_new_message checker k then (false, goals, k * interval)
    else if k * interval > timeout then
      (true, goals ++ [waitTimeoutGoal ((k * interval : ℕ) : ℚ)], k * interval)
    else waitAux checker timeout interval goals (k + 1) fuel

/-- `Waiter.wait`: returns (timed_out, goal list after the wait, elapsed
seconds at return).  `timeout` is `config.waiting.wait_timeout_seconds`
(conversation_loop.py) resp. `config.waiting.default_max_wait_seconds`
(waiter.py); `interval` is the fixed `check_interval = 5`. -/
def Waiter.wait (checker : Option (ℕ → Except String Bool))
    (timeout interval : ℕ) (goals : List GoalItem) :
    Bool × List GoalItem × ℕ :=
  waitAux checker timeout interval goals 0 (timeout / interval + 2)

/- ## Loop manager (`ConversationLoopManager`, conversation_loop.py lines 601-643) -/

/-- One `ConversationLoop` object as tracked by the manager: a unique identity,
the user it serves, the cached display name, and its `_running` flag. -/
structure LoopHandle where
  hid : ℕ
  user : String
  uname : String
  running : Bool
deriving Repr, DecidableEq

/-- The manager's state: the `_loops` dict (user id → handle identity), the
set of all loop objects ever constructed together with their current
`_running` flags, and a fresh-identity counter. -/
structure ManagerState where
  loops : String → Option ℕ
  handles : List LoopHandle
  nextId : ℕ

/-- The freshly constructed manager: empty registry. -/
def ManagerState.init : ManagerState :=
  { loops := fun _ => none, handles := [], nextId := 0 }

/-- `loop._running` of the handle with identity `h` (false if unknown). -/
def handleRunning (m : ManagerState) (h : ℕ) : Bool :=
  match m.handles.find? (fun x => x.hid = h) with
  | some x => x.running
  | none => false

/-- Set the `_running` flag of handle `h`. -/
def setRunning (m : ManagerState) (h : ℕ) (b : Bool) : ManagerState :=
  { m with handles := m.handles.map (fun x =>
      if x.hid = h then { x with running := b } else x) }

/-- Update the cached display name of handle `h` (the
`loop.user_name = user_name` branch of `get_or_create_loop`). -/
def setUname (m : ManagerState) (h : ℕ) (n : String) : ManagerState :=
  { m with handles := m.handles.map (fun x =>
      if x.hid = h then { x with uname := n } else x) }

/-- `ConversationLoop(session, user_name)` + `await loop.start()` +
registration: construct a fresh handle, mark it running, register it. -/
def createLoop (m : ManagerState) (u uname : String) : ManagerState × ℕ :=
  let h := m.nextId
  ({ loops := fun v => if v = u then some h else m.loops v,
     handles := m.handles ++ [⟨h, u, uname, true⟩],
     nextId := h + 1 }, h)

/-- `del self._loops[user_id]`: remove the registry entry for `u`. -/
def delReg (m : ManagerState) (u : String) : ManagerState :=
  { m with loops := fun v => if v = u then none else m.loops v }

/-- `ConversationLoopManager.get_or_create_loop` (lines 615-630): return the
registered handle if it is still running (refreshing its display name), else
first delete the stale registry entry and construct-and-start a new loop. -/
def get_or_create_loop (m : ManagerState) (u uname : String) :
    ManagerState × ℕ :=
  match m.loops u with
  | some h =>
    if handleRunning m h then
      (if uname ≠ "" ∧ uname ≠ u then setUname m h uname else m, h)
    else createLoop (delReg m u) u uname
  | none => createLoop m u uname

/-- `ConversationLoopManager.stop_loop` (lines 632-636): `loop.stop()` (which
sets `_running = False`) followed by deletion from the registry. -/
def stop_loop (m : ManagerState) (u : String) : ManagerState :=
  match m.loops u with
  | some h => delReg (setRunning m h false) u
  | none => m

/-- The loop task finishing on its own: `_loop` sets `self._running = False`
when it exits (conversation_loop.py line 234). -/
def taskExit (m : ManagerState) (h : ℕ) : ManagerState :=
  setRunning m h false

/-- The operations that can touch the manager's registry. -/
inductive MgrOp
  | getOrCreate (u uname : String)
  | stop (u : String)
  | exitTask (h : ℕ)

/-- Apply one operation. -/
def applyOp (m : ManagerState) : MgrOp → ManagerState
  | .getOrCreate u n => (get_or_create_loop m u n).1
  | .stop u => stop_loop m u
  | .exitTask h => taskExit m h

/-- Run a sequence of operations from the freshly constructed manager. -/
def runOps (ops : List MgrOp) : ManagerState :=
  ops.foldl applyOp ManagerState.init

/-- The handles for user `u` currently in the running state. -/
def runningFor (m : ManagerState) (u : String) : List LoopHandle :=
  m.handles.filter (fun h => h.user = u ∧ h.running)

/- ## Action planner (`planner.py`, class `ActionPlanner`) -/

/-- An element of `observation_info.chat_history` / `unprocessed_messages` as
the planner sees it through Python's untyped dicts: either a well-formed
message dict or a malformed element (e.g. `None` or a non-dict loaded by the
validation-free `ObservationInfo.from_dict` from a corrupted persisted
session), on which attribute access `msg.get(...)` raises `AttributeError`. -/
inductive ChatEntry
  | ok (m : Message)
  | malformed
deriving Repr, DecidableEq

/-- Read a chat-history element as a message dict; raises on a malformed
element (the first `.get` call on a non-dict). -/
def entryFields : ChatEntry → Except String Message
  | .ok m => .ok m
  | .malformed => .error "AttributeError: chat history element is not a dict"

/-- A loop over chat-history elements accessing each through `.get`: the list
of message dicts, or the exception raised at the first malformed element. -/
def mapEntries : List ChatEntry → Except String (List Message)
  | [] => Except.ok []
  | e :: rest => do
    let m ← entryFields e
    let ms ← mapEntries rest
    pure (m :: ms)

/-- The ASCII apostrophe (several of the planner's format strings quote values
with it). -/
def sq : String := String.singleton (Char.ofNat 39)

/-- Content lines of one formatted block in
`ActionPlanner._get_chat_history_text`: the stripped content with a trailing
`。` removed and `;` appended, when nonempty, always followed by a blank
separator line. -/
def planContentLines (content : String) : List String :=
  if content = "" then [""]
  else
    let sc := pyStrip content
    if sc = "" then [""]
    else [(if pyEndsWith sc "。" then pyDropLast sc else sc) ++ ";", ""]

/-- One history message formatted by the first loop of
`_get_chat_history_text` (planner.py lines 523-549); messages of unknown type
are skipped entirely. -/
def planFormatMsg (env : FmtEnv) (user_name : String) (m : Message) :
    List String :=
  let readable := translateTimestamp env m.time
  if m.mtype = "user_message" then
    (readable ++ " " ++ (if m.user_name = "" then user_name else m.user_name) ++ " 说:")
      :: planContentLines m.content
  else if m.mtype = "bot_message" then
    (readable ++ " " ++ env.botName ++ "(你) 说:") :: planContentLines m.content
  else []

/-- One unprocessed message formatted by the new-messages section of
`_get_chat_history_text` (planner.py lines 563-592): here non-bot messages all
take the user header, with display name defaulting to `"用户"`. -/
def planFormatNew (env : FmtEnv) (m : Message) : List String :=
  let readable := translateTimestamp env m.time
  let header :=
    if m.mtype = "bot_message" then readable ++ " " ++ env.botName ++ "(你) 说:"
    else readable ++ " " ++ (if m.user_name = "" then "用户" else m.user_name) ++ " 说:"
  let sc := pyStrip m.content
  header :: (if sc = "" then [""]
    else [(if pyEndsWith sc "。" then pyDropLast sc else sc) ++ ";", ""])

/-- Whether the new-messages section skips this unprocessed message: a truthy
timestamp already present in the processed-times set, or empty content. -/
def planNewSkipped (processedTimes : List ℚ) (m : Message) : Bool :=
  (m.time ≠ 0 ∧ m.time ∈ processedTimes) ∨ m.content = ""

/-- Join, strip and default the formatted blocks (the tail of
`_get_chat_history_text`). -/
def finishBlocks (blocks : List String) : String :=
  let s := pyStrip (String.intercalate "\n" blocks)
  if s = "" then "还没有聊天记录。" else s

/-- `ActionPlanner._get_chat_history_text` (planner.py lines 513-604).  This
helper has no exception guard of its own, so a malformed element — in the last
30 history entries, or (when the new-messages section runs) anywhere in the
history or in the unprocessed list — raises out of it. -/
def get_chat_history_text (env : FmtEnv) (user_name : String)
    (chat_history unprocessed : List ChatEntry) (new_messages_count : ℕ) :
    Except String String :=
  match mapEntries (takeLast 30 chat_history) with
  | .error e => .error e
  | .ok histMsgs =>
    let blocks := histMsgs.flatMap (planFormatMsg env user_name)
    if new_messages_count > 0 ∧ unprocessed ≠ [] then
      match mapEntries chat_history with
      | .error e => .error e
      | .ok allMsgs =>
        match mapEntries unprocessed with
        | .error e => .error e
        | .ok unpMsgs =>
          let processedTimes := (allMsgs.map Message.time).filter (fun t => t ≠ 0)
          let included := unpMsgs.filter (fun m => ¬ planNewSkipped processedTimes m)
          let newBlocks := included.flatMap (planFormatNew env)
          if newBlocks ≠ [] then
            .ok (finishBlocks (blocks ++
              ["--- 以下是 " ++ toString included.length ++ " 条新消息 ---",
               pyStrip (String.intercalate "\n" newBlocks)]))
          else .ok (finishBlocks blocks)
    else .ok (finishBlocks blocks)

/-- `ActionPlanner._build_goals_str` (planner.py lines 456-482; internally
guarded by its own `try`/`except`, and total on well-typed goals). -/
def build_goals_str (goal_list : List GoalItem) : String :=
  if goal_list = [] then "- 目前没有明确对话目标，请考虑设定一个。\n"
  else String.join (goal_list.map (fun g =>
    "- 目标：" ++ g.goal ++ "\n  原因：" ++ g.reasoning ++ "\n"))

/-- `ActionPlanner._build_knowledge_info_str` (planner.py lines 484-511). -/
def build_knowledge_info_str (knowledge_list : List KnowledgeItem) : String :=
  let base := "【已获取的相关知识和记忆】\n"
  if knowledge_list = [] then base ++ "- 暂无相关知识记忆。\n"
  else
    base ++ String.join ((takeLast 5 knowledge_list).enum.map (fun p =>
      let snippet := if p.2.knowledge.length > 2000 then pyTake p.2.knowledge 2000 ++ "..."
        else p.2.knowledge
      toString (p.1 + 1) ++ ". 关于 " ++ sq ++ p.2.query ++ sq ++ " 的知识 (来源: " ++
        p.2.source ++ "):\n   " ++ snippet ++ "\n"))

/-- `ActionPlanner._build_action_history` (planner.py lines 625-674): the
summary of the last five actions and the detailed context of the last one. -/
def build_action_history (done_action : List ActionRecord) : String × String :=
  let hist := takeLast 5 done_action
  match hist.getLast? with
  | none =>
    ("你最近执行的行动历史：\n- 还没有执行过行动。\n",
     "关于你【上一次尝试】的行动：\n- 这是你规划的第一个行动。\n")
  | some a =>
    let summary := "你最近执行的行动历史：\n" ++ String.join (hist.map (fun r =>
      let reason_text := match r.final_reason with
        | some fr => if fr = "" then "" else ", 失败/取消原因: " ++ fr
        | none => ""
      "- 时间:" ++ r.time ++ ", 尝试行动:" ++ sq ++ r.action ++ sq ++ ", 状态:" ++
        r.status ++ reason_text ++ "\n"))
    let lastCtx := "关于你【上一次尝试】的行动：\n" ++
      "- 上次【规划】的行动是: " ++ sq ++ a.action ++ sq ++ "\n" ++
      "- 当时规划的【原因】是: " ++ a.plan_reason ++ "\n" ++
      (if a.status = "done" then "- 该行动已【成功执行】。\n"
       else if a.status = "recall" then
         "- 但该行动最终【未能执行/被取消】。\n" ++
         (match a.final_reason with
          | some fr =>
            if fr = "" then "- 【重要】失败/取消原因未明确记录。\n"
            else "- 【重要】失败/取消的具体原因是: \"" ++ fr ++ "\"\n"
          | none => "- 【重要】失败/取消原因未明确记录。\n")
       else "- 该行动当前状态: " ++ a.status ++ "\n")
    (summary, lastCtx)

/-- `PFCSession.get_time_info` (session.py lines 266-289); Python `int()` on
the nonnegative elapsed values is floor. -/
def get_time_info (now : ℚ) (last_bot last_user : Option ℚ) : String :=
  (match last_bot with
   | some t => if t ≠ 0 then "\n距离你上次发言已经过去了" ++ toString ⌊now - t⌋ ++ "秒" else ""
   | none => "") ++
  (match last_user with
   | some t => if t ≠ 0 then "\n距离对方上次发言已经过去了" ++ toString ⌊now - t⌋ ++ "秒" else ""
   | none => "")

/-- `ActionPlanner._get_timeout_context` (planner.py lines 436-454; guarded by
its own `try`/`except` and total on well-typed goals). -/
def get_timeout_context (goal_list : List GoalItem) : String :=
  match goal_list.getLast? with
  | none => ""
  | some g =>
    if strContains g.goal "分钟，思考接下来要做什么" then
      let mins := replaceAll ((splitOnChar '，' g.goal).headD "") "你等待了" ""
      "重要提示：对方已经长时间（" ++ mins ++
        "）没有回复你的消息了（这可能代表对方繁忙/不想回复/没注意到你的消息等情况，或在对方看来本次聊天已告一段落），请基于此情况规划下一步。\n"
    else ""

/-- Walk of `_get_time_since_last_bot_message` (planner.py lines 388-407) over
the reversed history: the whole helper is wrapped in `try`/`except`, so a
malformed element encountered before the first bot message yields `""`. -/
def timeSinceAux (env : FmtEnv) : List ChatEntry → String
  | [] => ""
  | .malformed :: _ => ""
  | .ok m :: rest =>
    if m.mtype = "bot_message" then
      if m.time ≠ 0 ∧ env.now - m.time < 60 then
        "提示：你上一条成功发送的消息是在 " ++ fmtFixed (env.now - m.time) 1 ++ " 秒前。\n"
      else ""
    else timeSinceAux env rest

/-- `ActionPlanner._get_time_since_last_bot_message`. -/
def get_time_since_last_bot_message (env : FmtEnv)
    (chat_history : List ChatEntry) : String :=
  timeSinceAux env chat_history.reverse

/-- The planner's view of the session fields `plan` reads. -/
structure PlanSession where
  chat_history : List ChatEntry
  unprocessed_messages : List ChatEntry
  new_messages_count : ℕ
  goal_list : List GoalItem
  knowledge_list : List KnowledgeItem
  done_action : List ActionRecord
  last_successful_reply_action : Option String
  last_bot_speak_time : Option ℚ
  last_user_speak_time : Option ℚ
deriving Repr, DecidableEq

/-- Observable behaviour of the planning LLM round trip inside `plan`'s `try`
block: no `planner`/`normal` model configured, transport failure or empty
content, an exception anywhere in the call or the processing of its result, or
content from which `get_items_from_json(content, "action", "reason",
default="wait")` extracted `parsed` — `none` when no JSON object could be
extracted (both items then fall back to the default `"wait"`), otherwise the
optional string values of the `action` and `reason` fields. -/
inductive PlanLlmBehavior
  | noModel
  | callFailed
  | raisedDuringCall (e : String)
  | output (parsed : Option (Option String × Option String))
deriving Repr, DecidableEq

/-- Observable behaviour of the secondary farewell-decision LLM call inside
`_handle_end_decision` (which catches all of its own failures):
`unavailable` collapses the no-model / failed-call / exception cases, all of
which keep `end_conversation`. -/
inductive EndLlmBehavior
  | unavailable
  | output (say_bye : Option String) (reason : Option String)
deriving Repr, DecidableEq

/-- `ActionPlanner._handle_end_decision` (planner.py lines 333-386). -/
def handle_end_decision (endLlm : EndLlmBehavior) (initial_reason : String) :
    String × String :=
  match endLlm with
  | .unavailable => ("end_conversation", initial_reason)
  | .output say_bye reason =>
    let sd := say_bye.getD "no"
    let sd := if sd = "" then "no" else sd
    let er := reason.getD "未提供原因"
    let er := if er = "" then "未提供原因" else er
    if pyLower sd = "yes" then
      ("say_goodbye",
        "决定发送告别语。决策原因: " ++ er ++ " (原结束理由: " ++ initial_reason ++ ")")
    else ("end_conversation", initial_reason)

/-- The `valid_actions` list of `plan` (planner.py lines 309-319). -/
def validActions : List String :=
  ["direct_reply", "send_new_message", "fetch_knowledge", "wait", "listening",
   "rethink_goal", "end_conversation", "block_and_ignore", "say_goodbye"]

/-- `ActionPlanner.plan` (planner.py lines 219-331).  Prompt construction
(lines 226-268) happens before the `try` block: of its helpers only
`_get_chat_history_text` lacks an internal exception guard, so only it can
raise out of `plan`; the prompt text itself (template interpolation and
`_get_current_time_str`, which reads only the wall clock) cannot fail and
does not influence the returned value, which is determined by the LLM
behaviour.  The `try` block (lines 272-331) converts every modelled LLM
behaviour into a returned `(action, reason)` pair. -/
def ActionPlanner.plan (env : FmtEnv) (s : PlanSession) (user_name : String)
    (llm : PlanLlmBehavior) (endLlm : EndLlmBehavior) :
    Except String (String × String) := do
  let _chat ← get_chat_history_text env user_name s.chat_history
    s.unprocessed_messages s.new_messages_count
  let _tslb := get_time_since_last_bot_message env s.chat_history
  let _toctx := get_timeout_context s.goal_list
  let _goals := build_goals_str s.goal_list
  let _know := build_knowledge_info_str s.knowledge_list
  let _ahist := build_action_history s.done_action
  let _tinfo := get_time_info env.now s.last_bot_speak_time s.last_user_speak_time
  match llm with
  | .noModel => pure ("wait", "未找到模型配置")
  | .callFailed => pure ("wait", "LLM 调用失败")
  | .raisedDuringCall e => pure ("wait", "行动规划处理中发生错误，暂时等待: " ++ e)
  | .output parsed =>
    let av : String × String := match parsed with
      | none => ("wait", "wait")
      | some (a, r) => (a.getD "wait", r.getD "wait")
    let initial_action := if av.1 = "" then "wait" else av.1
    let initial_reason := if av.2 = "" then "LLM未提供原因，默认等待" else av.2
    if initial_action = "end_conversation" then
      pure (handle_end_decision endLlm initial_reason)
    else if initial_action ∈ validActions then pure (initial_action, initial_reason)
    else pure ("wait",
      "(原始行动" ++ sq ++ initial_action ++ sq ++ "无效，已强制改为wait) " ++ initial_reason)

/- ## Concrete environments used to instantiate the theorems -/

/-- A concrete formatting environment (clock at 1000 s, bot named `Bot`). -/
def witEnv : FmtEnv := { now := 1000, botName := "Bot", absTime := fun _ => "" }

/- ## Equation lemmas for the planning phase -/

/-- With the interrupt observed, the planning phase discards the planner result
and clears `last_successful_reply_action`. -/
theorem planPhase_interrupt (s : LoopState) (penv : PlanPhaseEnv)
    (h : penv.interruptDuringPlan = true) :
    planPhase s penv = (clearLsr (planPhaseBase s penv), none) := by
  unfold planPhase
  rw [h]
  simp

/-- Without the interrupt but with strictly more pending messages than the
snapshot, the planning phase likewise restarts. -/
theorem planPhase_softRestart (s : LoopState) (penv : PlanPhaseEnv)
    (h : penv.interruptDuringPlan = false)
    (hcur : (planPhaseBase s penv).observation_info.new_messages_count >
      s.observation_info.new_messages_count + 1) :
    planPhase s penv = (clearLsr (planPhaseBase s penv), none) := by
  unfold planPhase
  rw [h]
  rcases hpr : penv.planResult with ⟨pa, pr⟩
  simp [hcur]

/-- Without interrupt or extra messages, the planning phase dispatches the
planner's action, first merging unprocessed messages for reply-type actions. -/
theorem planPhase_dispatch (s : LoopState) (penv : PlanPhaseEnv)
    (h : penv.interruptDuringPlan = false)
    (hcur : ¬ (planPhaseBase s penv).observation_info.new_messages_count >
      s.observation_info.new_messages_count + 1) :
    planPhase s penv =
      (if penv.planResult.1 = "direct_reply" ∨ penv.planResult.1 = "send_new_message" then
        { planPhaseBase s penv with
          observation_info := mergedObs penv (planPhaseBase s penv).observation_info }
      else planPhaseBase s penv, some penv.planResult) := by
  unfold planPhase
  rw [h]
  rcases hpr : penv.planResult with ⟨pa, pr⟩
  simp [hcur, Nat.succ_pos]

/- ## C2: merging unprocessed messages -/

/-- C2: whenever the loop dispatches a reply-type action, unprocessed messages
are merged by `clear_unprocessed_messages`: every pending message is appended
to `chat_history` exactly once (the merged history is the concatenation,
capped at 100 entries with the oldest dropped), `unprocessed_messages` is left
empty and `new_messages_count` reset to 0; the merge is idempotent (a message
folded in once is never folded in again), and the loop performs exactly this
merge on the state handed to the reply handler. -/
theorem c2_no_lost_messages (env : FmtEnv) (o : ObservationInfo)
    (h : o.unprocessed_messages ≠ []) :
    (clear_unprocessed_messages env o).chat_history =
      (if (o.chat_history ++ o.unprocessed_messages).length > 100
       then takeLast 100 (o.chat_history ++ o.unprocessed_messages)
       else o.chat_history ++ o.unprocessed_messages) ∧
    (clear_unprocessed_messages env o).unprocessed_messages = [] ∧
    (clear_unprocessed_messages env o).new_messages_count = 0 ∧
    clear_unprocessed_messages env (clear_unprocessed_messages env o) =
      clear_unprocessed_messages env o ∧
    (∀ (s : LoopState) (penv : PlanPhaseEnv) (a r : String),
      (planPhase s penv).2 = some (a, r) →
      a = "direct_reply" ∨ a = "send_new_message" →
      (planPhase s penv).1.observation_info =
        mergedObs penv (planPhaseBase s penv).observation_info) := by
  refine ⟨?_, ?_, ?_, ?_, ?_⟩
  · simp only [clear_unprocessed_messages, if_neg h]
  · simp only [clear_unprocessed_messages, if_neg h]
  · simp only [clear_unprocessed_messages, if_neg h]
  · have h2 : (clear_unprocessed_messages env o).unprocessed_messages = [] := by
      simp only [clear_unprocessed_messages, if_neg h]
    conv_lhs => rw [clear_unprocessed_messages, if_pos h2]
  · intro s penv a r hdisp hrt
    cases hI : penv.interruptDuringPlan with
    | true =>
      rw [planPhase_interrupt s penv hI] at hdisp
      simp at hdisp
    | false =>
      by_cases hcur : (planPhaseBase s penv).observation_info.new_messages_count >
          s.observation_info.new_messages_count + 1
      · rw [planPhase_softRestart s penv hI hcur] at hdisp
        simp at hdisp
      · rw [planPhase_dispatch s penv hI hcur] at hdisp ⊢
        have hpr : penv.planResult = (a, r) := by simpa using hdisp
        rw [hpr]
        rcases hrt with hra | hra <;> subst hra
        · rw [if_pos (Or.inl rfl)]
        · rw [if_pos (Or.inr rfl)]


/-- C2 witness: the merge evaluated on a concrete observation state with one
pending message. -/
theorem c2_no_lost_messages_witness :
    (clear_unprocessed_messages witEnv
      { ObservationInfo.empty with
        unprocessed_messages := [mkUserMessage "你好" "小明" "42" 990],
        new_messages_count := 1 }).unprocessed_messages = [] ∧
    (clear_unprocessed_messages witEnv
      { ObservationInfo.empty with
        unprocessed_messages := [mkUserMessage "你好" "小明" "42" 990],
        new_messages_count := 1 }).new_messages_count = 0 := by
  have h := c2_no_lost_messages witEnv
    { ObservationInfo.empty with
      unprocessed_messages := [mkUserMessage "你好" "小明" "42" 990],
      new_messages_count := 1 } (by decide)
  exact ⟨h.2.1, h.2.2.1⟩

/- ## C4: the self-similarity rejection never fires on session-built history -/

/-- C4: evaluating the checker at the failing input.  The session appends bot
messages as `{"type": "bot_message", "content", "time"}` (no `sender` key),
but `_get_recent_bot_messages` selects messages by
`msg["sender"]["user_id"] == bot_qq`, so it finds no bot message in the
session-built history and the checker accepts a candidate reply that is
character-for-character identical to the bot's immediately preceding message
(here with the LLM check disabled so the outcome is deterministic). -/
theorem c4_checker_accepts_exact_duplicate :
    get_recent_bot_messages "123456"
      (add_bot_message witEnv ObservationInfo.empty "今天天气不错" 990).chat_history = [] ∧
    ReplyChecker.check
      { enabled := true, use_llm_check := false, similarity_threshold := 9/10,
        max_retries := 3 }
      "123456" (fun _ _ => 1) LlmCheckBehavior.noModel "今天天气不错" ""
      (add_bot_message witEnv ObservationInfo.empty "今天天气不错" 990).chat_history 0 =
      (true, "回复检查通过", false) := by
  exact ⟨rfl, rfl⟩

/- ## C9: escalation at retry exhaustion -/

/-- C9 counterexample: with the LLM check enabled, an LLM response from which
no JSON object can be extracted is handed to `_fallback_parse`, which ignores
`retry_count`; the raw text `不合适` yields a rejection with
`should_replan = False` even though `retry_count` equals `max_retries`. -/
theorem c9_counterexample :
    3 ≥ ReplyCheckerConfig.default.max_retries ∧
    ReplyChecker.check ReplyCheckerConfig.default "123456" (fun _ _ => 1)
      (LlmCheckBehavior.respUnparseable "不合适") "你好" "" [] 3 =
      (false, "不合适", false) := by
  exact ⟨by decide, rfl⟩

/-- Escalation of `checkTail` (the post-similarity part of `check`): a
rejection at exhausted retries carries `should_replan = true`, except through
`_fallback_parse`. -/
theorem checkTail_escalates (cfg : ReplyCheckerConfig) (llm : LlmCheckBehavior)
    (retry_count : ℕ) (hmax : retry_count ≥ cfg.max_retries)
    (hnf : ∀ c, llm ≠ LlmCheckBehavior.respUnparseable c)
    (hrej : (checkTail cfg llm retry_count).1 = false) :
    (checkTail cfg llm retry_count).2.2 = true := by
  unfold checkTail at hrej ⊢
  by_cases hu : cfg.use_llm_check = true
  · rw [if_pos hu] at hrej ⊢
    cases llm with
    | noModel => simp [llm_check] at hrej
    | callFailed => simp [llm_check] at hrej
    | raised e =>
      simp only [llm_check] at hrej ⊢
      rw [if_pos hmax]
    | respObj suitable reason need_replan =>
      simp only [llm_check, parse_llm_response] at hrej ⊢
      split_ifs at hrej ⊢ with h1 h2
      · exact absurd h1.2 (Nat.not_lt.mpr hmax)
      · rfl
      · exfalso
        simp only [Prod.fst] at hrej
        exact h2 ⟨by simp [hrej], hmax⟩
    | respUnparseable c => exact absurd rfl (hnf c)
  · rw [if_neg hu, if_pos hmax] at hrej
    exact absurd hrej (by decide)

/-- C9 (amended): for every enabled checker, a rejection with `retry_count`
at or beyond `max_retries` returns `should_replan = true` on every path except
the `_fallback_parse` path (an LLM check response with no extractable JSON),
which derives `should_replan` from keywords in the raw text and ignores
`retry_count`. -/
theorem c9_escalation_amended (cfg : ReplyCheckerConfig) (botQQ : String)
    (sim : String → String → ℚ) (llm : LlmCheckBehavior)
    (reply goal : String) (chat_history : List Message) (retry_count : ℕ)
    (hmax : retry_count ≥ cfg.max_retries)
    (hnf : ∀ c, llm ≠ LlmCheckBehavior.respUnparseable c)
    (hrej : (ReplyChecker.check cfg botQQ sim llm reply goal chat_history
      retry_count).1 = false) :
    (ReplyChecker.check cfg botQQ sim llm reply goal chat_history
      retry_count).2.2 = true := by
  unfold ReplyChecker.check at hrej ⊢
  by_cases he : cfg.enabled = true
  · rw [if_neg (not_not_intro he)] at hrej ⊢
    by_cases h1 : reply = "" ∨ pyStrip reply = ""
    · rw [if_pos h1]
    · rw [if_neg h1] at hrej ⊢
      by_cases h2 : reply.length > 500
      · rw [if_pos h2]
      · rw [if_neg h2] at hrej ⊢
        rcases hf : inappropriatePatterns.find? (fun p => strContains reply p) with _ | pat
        · simp only [hf] at hrej ⊢
          rcases hh : (get_recent_bot_messages botQQ chat_history).head? with _ | b0
          · simp only [hh] at hrej ⊢
            exact checkTail_escalates cfg llm retry_count hmax hnf hrej
          · simp only [hh] at hrej ⊢
            by_cases hd : reply = b0
            · rw [if_pos hd]
            · rw [if_neg hd] at hrej ⊢
              by_cases hs : sim reply b0 > cfg.similarity_threshold
              · rw [if_pos hs]
              · rw [if_neg hs] at hrej ⊢
                exact checkTail_escalates cfg llm retry_count hmax hnf hrej
        · simp only [hf] at hrej ⊢
  · rw [if_pos he] at hrej
    exact absurd hrej (by decide)

/-- C9 amended, witnessed: an empty reply is rejected structurally at
`retry_count = max_retries = 0`, and `should_replan` is `true`. -/
theorem c9_escalation_amended_witness :
    (ReplyChecker.check
      { enabled := true, use_llm_check := false, similarity_threshold := 9/10,
        max_retries := 0 }
      "1" (fun _ _ => 0) LlmCheckBehavior.noModel "" "" [] 0).2.2 = true :=
  c9_escalation_amended _ _ _ _ _ _ _ _ (by decide)
    (fun c h => LlmCheckBehavior.noConfusion h) (by rfl)

/- ## C1: preemption -/

/-- The loop-carried state at either exit of the retry loop. -/
def ReplyLoopExit.carry : ReplyLoopExit → ReplyCarry
  | .interrupted c => c
  | .finished c => c

/-- C1: preemption.  (1) If the interrupt event is set before the planning
task completes, the planning phase discards the planner's result, clears
`last_successful_reply_action`, and restarts the iteration dispatching no
action handler.  (2) If the retry loop of the reply handler exits through an
interrupt check, the handler returns failure with the action record updated to
`recall` (`被新消息中断`) and nothing sent.  (3) With the interrupt event set
at the first attempt — at the loop top, or when the race with the generation
task returns — the retry loop does exit through that interrupt check, the
generation being cancelled (at most one generation task was started and none
produced a used reply). -/
theorem c1_preemption :
    (∀ (s : LoopState) (penv : PlanPhaseEnv), penv.interruptDuringPlan = true →
      (planPhase s penv).2 = none ∧
      (planPhase s penv).1.conversation_info.last_successful_reply_action = none) ∧
    (∀ (aty : String) (maxA : ℕ) (preLsr : Option String) (env : ReplyHandlerEnv)
       (c : ReplyCarry),
      replyWhile env.envs maxA initialReplyCarry = ReplyLoopExit.interrupted c →
      handle_reply_action aty maxA preLsr env =
        { success := false, genStarts := c.genStarts, recordStatus := "recall",
          recordFinalReason := "被新消息中断", sentLines := [], lsr := preLsr,
          fallbackWait := false, fallbackRecord := none }) ∧
    (∀ (envs : ℕ → AttemptEnv) (n : ℕ), (envs 1).interruptAtTop = true →
      replyWhile envs (n + 1) initialReplyCarry =
        ReplyLoopExit.interrupted initialReplyCarry) ∧
    (∀ (envs : ℕ → AttemptEnv) (n : ℕ), (envs 1).interruptAtTop = false →
      (envs 1).interruptAfterGen = true →
      replyWhile envs (n + 1) initialReplyCarry =
        ReplyLoopExit.interrupted (bumpAttempt initialReplyCarry)) := by
  refine ⟨?_, ?_, ?_, ?_⟩
  · intro s penv hI
    rw [planPhase_interrupt s penv hI]
    exact ⟨rfl, rfl⟩
  · intro aty maxA preLsr env c hw
    unfold handle_reply_action
    rw [hw]
  · intro envs n hT
    rw [replyWhile]
    simp [initialReplyCarry, hT]
  · intro envs n hT hG
    rw [replyWhile]
    simp [initialReplyCarry, hT, hG]

/-- C1 witnessing inputs: a loop state, an interrupted planning environment,
and a reply-handler environment whose first attempt sees the interrupt at the
loop top. -/
def witState : LoopState :=
  { should_continue := true, ignore_until_timestamp := none,
    conversation_info := { ConversationInfo.empty with
      last_successful_reply_action := some "direct_reply" },
    observation_info := ObservationInfo.empty, interrupt_event := false }

/-- A planning-phase environment in which the interrupt event fires. -/
def witPlanEnvI : PlanPhaseEnv :=
  { interruptDuringPlan := true, planResult := ("direct_reply", "回复"),
    arrivals := [("在吗", "小明", "42", 995)], fmt := witEnv }

/-- A reply-handler environment whose first attempt is interrupted at the top
of the loop body. -/
def witReplyEnvI : ReplyHandlerEnv :=
  { envs := fun _ =>
      { interruptAtTop := true, interruptAfterGen := false,
        genResult := Except.ok "你好", checkResult := Except.ok (true, "通过", false) },
    interruptAtSend := false, newCountAtSend := 0, nowStr := "12:00:00" }

/-- C1 witness: the preemption conclusions evaluated at concrete inputs. -/
theorem c1_preemption_witness :
    (planPhase witState witPlanEnvI).2 = none ∧
    (planPhase witState witPlanEnvI).1.conversation_info.last_successful_reply_action = none ∧
    handle_reply_action "direct_reply" 3 (some "direct_reply") witReplyEnvI =
      { success := false, genStarts := 0, recordStatus := "recall",
        recordFinalReason := "被新消息中断", sentLines := [], lsr := some "direct_reply",
        fallbackWait := false, fallbackRecord := none } := by
  refine ⟨(c1_preemption.1 witState witPlanEnvI rfl).1,
    (c1_preemption.1 witState witPlanEnvI rfl).2, ?_⟩
  have h3 := c1_preemption.2.2.1 witReplyEnvI.envs 2 rfl
  exact c1_preemption.2.1 "direct_reply" 3 (some "direct_reply") witReplyEnvI
    initialReplyCarry h3

/- ## C3: the retry bound -/

/-- Each pass of the retry loop starts at most one generation task, so the
number of generation tasks started is bounded by the fuel. -/
theorem replyWhile_genStarts_le (envs : ℕ → AttemptEnv) :
    ∀ (fuel : ℕ) (c : ReplyCarry),
      ((replyWhile envs fuel c).carry).genStarts ≤ c.genStarts + fuel := by
  intro fuel
  induction fuel with
  | zero =>
    intro c
    simp [replyWhile, ReplyLoopExit.carry]
  | succ n ih =>
    intro c
    rw [replyWhile]
    by_cases hs : c.is_suitable = true
    · rw [if_pos hs]; simp [ReplyLoopExit.carry]
    · rw [if_neg hs]
      by_cases hT : (envs (c.attempt + 1)).interruptAtTop = true
      · rw [if_pos hT]; simp [ReplyLoopExit.carry]
      · rw [if_neg hT]
        by_cases hG : (envs (c.attempt + 1)).interruptAfterGen = true
        · rw [if_pos hG]; simp [ReplyLoopExit.carry, bumpAttempt]
        · rw [if_neg hG]
          rcases hg : (envs (c.attempt + 1)).genResult with msg | reply
          · dsimp only
            refine le_trans (ih _) ?_
            simp [bumpAttempt]; omega
          · dsimp only
            by_cases hr : reply = ""
            · rw [if_pos hr]
              refine le_trans (ih _) ?_
              simp [bumpAttempt]; omega
            · rw [if_neg hr]
              rcases hc : (envs (c.attempt + 1)).checkResult with msg | t
              · dsimp only
                simp [ReplyLoopExit.carry, bumpAttempt]
              · rcases t with ⟨suit, reason, replan⟩
                dsimp only
                by_cases hsu : suit = true
                · rw [if_pos hsu]
                  simp [ReplyLoopExit.carry, bumpAttempt]
                · rw [if_neg hsu]
                  by_cases hrp : replan = true
                  · rw [if_pos hrp]
                    simp [ReplyLoopExit.carry, bumpAttempt]
                  · rw [if_neg hrp]
                    refine le_trans (ih _) ?_
                    simp [bumpAttempt]; omega

/-- Run of the retry loop against a generator that always produces a nonempty
reply and a checker that always rejects with `should_replan = false`, without
interrupts: every unit of fuel is consumed by one full rejected attempt. -/
theorem replyWhile_allReject (envs : ℕ → AttemptEnv) (g r : ℕ → String)
    (hT : ∀ k, (envs k).interruptAtTop = false)
    (hG : ∀ k, (envs k).interruptAfterGen = false)
    (hg : ∀ k, (envs k).genResult = Except.ok (g k))
    (hne : ∀ k, g k ≠ "")
    (hc : ∀ k, (envs k).checkResult = Except.ok (false, r k, false)) :
    ∀ (fuel : ℕ) (c : ReplyCarry), c.is_suitable = false →
      replyWhile envs fuel c = ReplyLoopExit.finished
        { attempt := c.attempt + fuel, is_suitable := false,
          need_replan := if fuel = 0 then c.need_replan else false,
          check_reason := if fuel = 0 then c.check_reason else r (c.attempt + fuel),
          final_reply := c.final_reply, genStarts := c.genStarts + fuel } := by
  intro fuel
  induction fuel with
  | zero =>
    intro c hcs
    simp only [replyWhile, if_pos rfl]
    cases c
    simp_all
  | succ n ih =>
    intro c hcs
    rw [replyWhile]
    rw [if_neg (by simp [hcs]), if_neg (by simp [hT]), if_neg (by simp [hG]), hg]
    dsimp only
    rw [if_neg (hne (c.attempt + 1)), hc]
    dsimp only
    rw [if_neg (by simp), if_neg (by simp)]
    rw [ih _ (by simp [bumpAttempt])]
    have ha : c.attempt + 1 + n = c.attempt + (n + 1) := by omega
    cases n with
    | zero => simp [bumpAttempt]
    | succ m =>
      simp only [bumpAttempt, Nat.succ_ne_zero, if_false]
      rw [ha]
      have hb : c.genStarts + 1 + (m + 1) = c.genStarts + (m + 1 + 1) := by omega
      simp [hb, ha]

/-- C3: the reply handler starts at most `max_retries` generation tasks; and
against a generator that always produces a nonempty reply and a checker that
always rejects with `should_replan = false` (no interrupts), a positive
`max_retries` is consumed exactly — `max_retries` generation tasks, then the
action record is set to `recall`, `last_successful_reply_action` is cleared,
nothing is sent, and a synthetic follow-up `wait` action (already `done`) is
recorded for the fallback wait. -/
theorem c3_retry_bound :
    (∀ (aty : String) (maxA : ℕ) (preLsr : Option String) (env : ReplyHandlerEnv),
      (handle_reply_action aty maxA preLsr env).genStarts ≤ maxA) ∧
    (∀ (aty : String) (maxA : ℕ) (preLsr : Option String) (env : ReplyHandlerEnv)
       (g r : ℕ → String),
      1 ≤ maxA →
      (∀ k, (env.envs k).interruptAtTop = false) →
      (∀ k, (env.envs k).interruptAfterGen = false) →
      (∀ k, (env.envs k).genResult = Except.ok (g k)) →
      (∀ k, g k ≠ "") →
      (∀ k, (env.envs k).checkResult = Except.ok (false, r k, false)) →
      handle_reply_action aty maxA preLsr env =
        { success := false, genStarts := maxA, recordStatus := "recall",
          recordFinalReason := "尝试" ++ toString maxA ++ "次后失败: " ++ r maxA,
          sentLines := [], lsr := none, fallbackWait := true,
          fallbackRecord := some
            { action := "wait",
              plan_reason := "因 " ++ aty ++ " 多次尝试失败而执行的后备等待",
              status := "done", time := env.nowStr, final_reason := none } }) := by
  constructor
  · intro aty maxA preLsr env
    have hb := replyWhile_genStarts_le env.envs maxA initialReplyCarry
    unfold handle_reply_action
    rcases hw : replyWhile env.envs maxA initialReplyCarry with c | c <;>
      rw [hw] at hb <;> simp only [ReplyLoopExit.carry, initialReplyCarry] at hb
    · simpa using hb
    · dsimp only
      by_cases hsu : c.is_suitable = true
      · rw [if_pos hsu]
        by_cases hIS : env.interruptAtSend = true
        · rw [if_pos hIS]; simpa using hb
        · rw [if_neg hIS]
          by_cases hNC : env.newCountAtSend > 2
          · rw [if_pos hNC]; simpa using hb
          · rw [if_neg hNC]; simpa using hb
      · rw [if_neg hsu]
        by_cases hrp : ¬ c.need_replan = true
        · rw [if_pos hrp]; simpa using hb
        · rw [if_neg hrp]; simpa using hb
  · intro aty maxA preLsr env g r hpos hT hG hg hne hc
    have hw := replyWhile_allReject env.envs g r hT hG hg hne hc maxA
      initialReplyCarry rfl
    have hz : ¬ maxA = 0 := by omega
    rw [if_neg hz] at hw
    unfold handle_reply_action
    rw [hw]
    simp only [initialReplyCarry, Nat.zero_add, if_neg (by simp : ¬ (false : Bool) = true)]
    simp [hz]

/-- C3 witness: three rejected attempts with `max_retries = 3`, then the
fallback wait. -/
theorem c3_retry_bound_witness :
    (handle_reply_action "direct_reply" 3 none
      { envs := fun _ =>
          { interruptAtTop := false, interruptAfterGen := false,
            genResult := Except.ok "你好", checkResult := Except.ok (false, "重复", false) },
        interruptAtSend := false, newCountAtSend := 0, nowStr := "10:00:00" }).genStarts ≤ 3 ∧
    handle_reply_action "direct_reply" 3 none
      { envs := fun _ =>
          { interruptAtTop := false, interruptAfterGen := false,
            genResult := Except.ok "你好", checkResult := Except.ok (false, "重复", false) },
        interruptAtSend := false, newCountAtSend := 0, nowStr := "10:00:00" } =
      { success := false, genStarts := 3, recordStatus := "recall",
        recordFinalReason := "尝试" ++ toString 3 ++ "次后失败: " ++ "重复",
        sentLines := [], lsr := none, fallbackWait := true,
        fallbackRecord := some
          { action := "wait",
            plan_reason := "因 " ++ "direct_reply" ++ " 多次尝试失败而执行的后备等待",
            status := "done", time := "10:00:00", final_reason := none } } := by
  constructor
  · exact c3_retry_bound.1 "direct_reply" 3 none _
  · exact c3_retry_bound.2 "direct_reply" 3 none _ (fun _ => "你好") (fun _ => "重复")
      (by omega) (fun k => rfl) (fun k => rfl) (fun k => rfl)
      (fun k => by show ("你好" : String) ≠ ""; decide) (fun k => rfl)

/- ## C8: the ignore window -/

/-- C8: `block_and_ignore` sets `ignore_until_timestamp = now + cooldown` and
stops the loop; while the window is open every iteration short-circuits before
the planner (whatever has arrived meanwhile); once it has expired, the
iteration clears it — still without planning — and stops the loop if no
message arrived during the window. -/
theorem c8_ignore_window :
    (∀ (s : LoopState) (now b : ℚ),
      handle_block_and_ignore s now b =
        ({ s with ignore_until_timestamp := some (now + b),
                  should_continue := false }, true)) ∧
    (∀ (s : LoopState) (now t : ℚ) (penv : PlanPhaseEnv),
      s.ignore_until_timestamp = some t → now < t →
      loopIter s now penv = (s, IterOutcome.idle)) ∧
    (∀ (s : LoopState) (now t : ℚ) (penv : PlanPhaseEnv),
      s.ignore_until_timestamp = some t → ¬ now < t →
      loopIter s now penv =
        ({ s with ignore_until_timestamp := none,
                  should_continue :=
                    if s.observation_info.new_messages_count = 0 then false
                    else s.should_continue }, IterOutcome.idle)) := by
  refine ⟨fun s now b => rfl, ?_, ?_⟩
  · intro s now t penv hig hlt
    unfold loopIter ignoreStep
    rw [hig]
    simp [hlt]
  · intro s now t penv hig hlt
    unfold loopIter ignoreStep
    rw [hig]
    simp only [if_neg hlt]
    by_cases hz : s.observation_info.new_messages_count = 0
    · simp [hz]
    · simp [hz]

/-- C8 witness: a concrete blocked state before and after expiry. -/
theorem c8_ignore_window_witness :
    handle_block_and_ignore witState 1000 1800 =
      ({ witState with ignore_until_timestamp := some (1000 + 1800),
                       should_continue := false }, true) ∧
    loopIter { witState with ignore_until_timestamp := some 2800 } 1500 witPlanEnvI =
      ({ witState with ignore_until_timestamp := some 2800 }, IterOutcome.idle) ∧
    loopIter { witState with ignore_until_timestamp := some 2800 } 2900 witPlanEnvI =
      ({ witState with ignore_until_timestamp := none,
                       should_continue :=
                         if ({ witState with ignore_until_timestamp := some 2800
                            }).observation_info.new_messages_count = 0 then false
                         else ({ witState with ignore_until_timestamp := some 2800
                            }).should_continue }, IterOutcome.idle) := by
  refine ⟨c8_ignore_window.1 witState 1000 1800, ?_, ?_⟩
  · exact c8_ignore_window.2.1 _ 1500 2800 witPlanEnvI rfl (by norm_num)
  · exact c8_ignore_window.2.2 _ 2900 2800 witPlanEnvI rfl (by norm_num)

/- ## C7 / C10: the waiter -/

/-- If the predicate never fires, the polling loop reaches poll
`timeout / interval + 1` — the first poll whose elapsed time exceeds the
timeout — appends exactly one timeout goal there, and returns `true`. -/
theorem waitAux_timeout (checker : Option (ℕ → Except String Bool))
    (timeout interval : ℕ) (g : List GoalItem) (hI : 0 < interval)
    (hall : ∀ j, check_new_message checker j = false) :
    ∀ (fuel k : ℕ), k ≤ timeout / interval + 1 →
      k + fuel = timeout / interval + 2 →
      waitAux checker timeout interval g k fuel =
        (true, g ++ [waitTimeoutGoal (((timeout / interval + 1) * interval : ℕ) : ℚ)],
         (timeout / interval + 1) * interval) := by
  intro fuel
  induction fuel with
  | zero => intro k hk hsum; omega
  | succ n ih =>
    intro k hk hsum
    rw [waitAux]
    simp only [hall k, Bool.false_eq_true, if_false]
    by_cases hko : k * interval > timeout
    · have h1 : timeout / interval * interval ≤ timeout := Nat.div_mul_le_self _ _
      have hk' : k = timeout / interval + 1 := by
        by_contra hne
        have hklt : k ≤ timeout / interval := by omega
        have h2 : k * interval ≤ timeout / interval * interval :=
          Nat.mul_le_mul_right _ hklt
        omega
      subst hk'
      rw [if_pos hko]
    · rw [if_neg hko]
      have hkd : k ≤ timeout / interval :=
        (Nat.le_div_iff_mul_le hI).mpr (by omega)
      exact ih (k + 1) (by omega) (by omega)

/-- `Waiter.wait` against a predicate that never fires: timeout reported,
exactly one goal appended, within one poll interval past the deadline. -/
theorem wait_timeout_of_all_false (checker : Option (ℕ → Except String Bool))
    (timeout interval : ℕ) (g : List GoalItem) (hI : 0 < interval)
    (hall : ∀ j, check_new_message checker j = false) :
    Waiter.wait checker timeout interval g =
      (true, g ++ [waitTimeoutGoal (((timeout / interval + 1) * interval : ℕ) : ℚ)],
       (timeout / interval + 1) * interval) :=
  by
  unfold Waiter.wait
  exact waitAux_timeout checker timeout interval g hI hall
    (timeout / interval + 2) 0 (Nat.zero_le _) (Nat.zero_add _)

/-- If the predicate first fires at poll `j`, with `j` still inside the
timeout, the polling loop returns `false` there without touching the goals. -/
theorem waitAux_activity (checker : Option (ℕ → Except String Bool))
    (timeout interval : ℕ) (g : List GoalItem) (j : ℕ) (hI : 0 < interval)
    (hfirst : ∀ i, i < j → check_new_message checker i = false)
    (hj : check_new_message checker j = true) (hjT : j * interval ≤ timeout) :
    ∀ (fuel k : ℕ), k ≤ j → k + fuel = timeout / interval + 2 →
      waitAux checker timeout interval g k fuel = (false, g, j * interval) := by
  have hjd : j ≤ timeout / interval := (Nat.le_div_iff_mul_le hI).mpr hjT
  intro fuel
  induction fuel with
  | zero => intro k hk hsum; omega
  | succ n ih =>
    intro k hk hsum
    rw [waitAux]
    by_cases hkj : k = j
    · subst hkj
      rw [if_pos hj]
    · have hklt : k < j := by omega
      simp only [hfirst k hklt, Bool.false_eq_true, if_false]
      have h1 : timeout / interval * interval ≤ timeout := Nat.div_mul_le_self _ _
      have h2 : k * interval ≤ timeout / interval * interval :=
        Nat.mul_le_mul_right _ (by omega)
      rw [if_neg (by omega)]
      exact ih (k + 1) (by omega) (by omega)

/-- C7: with an always-false predicate, `Waiter.wait` detects the timeout at
the first poll past the deadline (within one poll interval), returns `true`,
and appends exactly one goal describing the waited duration in minutes; with a
predicate that fires inside the timeout, it returns `false` and appends no
goal. -/
theorem c7_timeout_goal_injection :
    (∀ (checker : Option (ℕ → Except String Bool)) (timeout interval : ℕ)
       (g : List GoalItem), 0 < interval →
      (∀ j, check_new_message checker j = false) →
      Waiter.wait checker timeout interval g =
        (true, g ++ [waitTimeoutGoal (((timeout / interval + 1) * interval : ℕ) : ℚ)],
         (timeout / interval + 1) * interval) ∧
      timeout < (timeout / interval + 1) * interval ∧
      (timeout / interval + 1) * interval ≤ timeout + interval) ∧
    (∀ (checker : Option (ℕ → Except String Bool)) (timeout interval : ℕ)
       (g : List GoalItem) (j : ℕ), 0 < interval →
      (∀ i, i < j → check_new_message checker i = false) →
      check_new_message checker j = true → j * interval ≤ timeout →
      Waiter.wait checker timeout interval g = (false, g, j * interval)) := by
  constructor
  · intro checker timeout interval g hI hall
    refine ⟨wait_timeout_of_all_false checker timeout interval g hI hall, ?_, ?_⟩
    · have h1 := Nat.div_add_mod timeout interval
      have h2 := Nat.mod_lt timeout hI
      have key : (timeout / interval + 1) * interval =
          interval * (timeout / interval) + interval := by
        rw [Nat.add_mul, Nat.one_mul, Nat.mul_comm]
      omega
    · have h1 := Nat.div_mul_le_self timeout interval
      have key : (timeout / interval + 1) * interval =
          timeout / interval * interval + interval := by
        rw [Nat.add_mul, Nat.one_mul]
      omega
  · intro checker timeout interval g j hI hfirst hj hjT
    unfold Waiter.wait
    exact waitAux_activity checker timeout interval g j hI hfirst hj hjT
      (timeout / interval + 2) 0 (Nat.zero_le j) (by omega)

/-- A witnessing predicate that fires from poll 2 onwards. -/
def witChecker : ℕ → Except String Bool := fun k => Except.ok (decide (2 ≤ k))

/-- C7 witness: the waiter evaluated with the source's poll interval of 5 and
the default 300-second timeout — timeout at 305 s elapsed with the 5.1-minute
goal appended, and early exit at 10 s elapsed when the predicate fires. -/
theorem c7_timeout_goal_injection_witness :
    Waiter.wait none 300 5 [] =
      (true, [] ++ [waitTimeoutGoal (((300 / 5 + 1) * 5 : ℕ) : ℚ)], (300 / 5 + 1) * 5) ∧
    (300 : ℕ) < (300 / 5 + 1) * 5 ∧
    Waiter.wait (some witChecker) 300 5 [] = (false, [], 2 * 5) := by
  refine ⟨?_, ?_, ?_⟩
  · exact (c7_timeout_goal_injection.1 none 300 5 [] (by omega) (fun j => rfl)).1
  · exact (c7_timeout_goal_injection.1 none 300 5 [] (by omega) (fun j => rfl)).2.1
  · exact c7_timeout_goal_injection.2 (some witChecker) 300 5 [] 2 (by omega)
      (by decide) (by decide) (by omega)

/-- C10: a predicate that raises whenever polled is indistinguishable from
"no new activity": `_check_new_message` catches the exception and returns
`False`, the wait never raises, runs to its timeout, and appends the timeout
goal as usual. -/
theorem c10_predicate_failure_degrades (c : ℕ → Except String Bool)
    (timeout interval : ℕ) (g : List GoalItem) (hI : 0 < interval)
    (hErr : ∀ k b, c k ≠ Except.ok b) :
    (∀ k, check_new_message (some c) k = false) ∧
    Waiter.wait (some c) timeout interval g =
      (true, g ++ [waitTimeoutGoal (((timeout / interval + 1) * interval : ℕ) : ℚ)],
       (timeout / interval + 1) * interval) := by
  have hfalse : ∀ k, check_new_message (some c) k = false := by
    intro k
    rcases hck : c k with e | b
    · simp [check_new_message, hck]
    · exact absurd hck (hErr k b)
  exact ⟨hfalse, wait_timeout_of_all_false (some c) timeout interval g hI hfalse⟩

/-- C10 witness: an always-raising predicate with a 1-second timeout and
1-second poll interval times out at 2 s elapsed with exactly the one goal. -/
theorem c10_predicate_failure_degrades_witness :
    check_new_message (some (fun _ => Except.error "boom")) 0 = false ∧
    Waiter.wait (some (fun _ => Except.error "boom")) 1 1 [] =
      (true, [] ++ [waitTimeoutGoal (((1 / 1 + 1) * 1 : ℕ) : ℚ)], (1 / 1 + 1) * 1) := by
  have h := c10_predicate_failure_degrades (fun _ => Except.error "boom") 1 1 []
    (by omega) (fun k b h => Except.noConfusion h)
  exact ⟨h.1 0, h.2⟩

/- ## C5: at most one running loop per user -/

/-- The registry invariant the manager's operations maintain: handle ids are
bounded by the fresh counter and pairwise distinct, and every running handle
is exactly the one its user's registry entry points to. -/
structure MgrInv (m : ManagerState) : Prop where
  bounded : ∀ h ∈ m.handles, h.hid < m.nextId
  nodupIds : (m.handles.map LoopHandle.hid).Nodup
  registered : ∀ h ∈ m.handles, h.running = true → m.loops h.user = some h.hid

/-- In a key-nodup list, members with equal keys coincide. -/
theorem nodup_key_inj {l : List LoopHandle}
    (hn : (l.map LoopHandle.hid).Nodup) :
    ∀ a ∈ l, ∀ b ∈ l, a.hid = b.hid → a = b := by
  induction l with
  | nil => intro a ha; exact absurd ha (List.not_mem_nil a)
  | cons x xs ih =>
    rw [List.map_cons, List.nodup_cons] at hn
    intro a ha b hb hab
    rcases List.mem_cons.mp ha with ha' | ha' <;>
      rcases List.mem_cons.mp hb with hb' | hb'
    · rw [ha', hb']
    · subst ha'
      exact absurd (by rw [hab]; exact List.mem_map_of_mem _ hb') hn.1
    · subst hb'
      exact absurd (by rw [← hab]; exact List.mem_map_of_mem _ ha') hn.1
    · exact ih hn.2 a ha' b hb' hab

/-- In a key-nodup list, `find?` by a member's key returns that member. -/
theorem find?_key_of_mem {l : List LoopHandle}
    (hn : (l.map LoopHandle.hid).Nodup) {h : LoopHandle} (hm : h ∈ l) :
    l.find? (fun x => x.hid = h.hid) = some h := by
  induction l with
  | nil => exact absurd hm (List.not_mem_nil h)
  | cons x xs ih =>
    rw [List.map_cons, List.nodup_cons] at hn
    rcases List.mem_cons.mp hm with h1 | h1
    · subst h1
      exact List.find?_cons_of_pos _ (by simp)
    · by_cases hx : x.hid = h.hid
      · exact absurd (by rw [hx]; exact List.mem_map_of_mem _ h1) hn.1
      · rw [List.find?_cons_of_neg _ (by simpa using hx)]
        exact ih hn.2 h1

/-- Under the invariant, `handleRunning` reads a member's `running` flag. -/
theorem handleRunning_mem (m : ManagerState) (inv : MgrInv m)
    {h : LoopHandle} (hm : h ∈ m.handles) :
    handleRunning m h.hid = h.running := by
  unfold handleRunning
  rw [find?_key_of_mem inv.nodupIds hm]

/-- The invariant survives a handles-map that preserves ids and users and
never turns a stopped handle into a running one. -/
theorem mgrInv_map (m : ManagerState) (f : LoopHandle → LoopHandle)
    (hid_eq : ∀ x, (f x).hid = x.hid) (user_eq : ∀ x, (f x).user = x.user)
    (run_imp : ∀ x, (f x).running = true → x.running = true)
    (inv : MgrInv m) : MgrInv { m with handles := m.handles.map f } := by
  constructor
  · intro h hm
    obtain ⟨x, hx, rfl⟩ := List.mem_map.mp hm
    rw [hid_eq]
    exact inv.bounded x hx
  · show ((m.handles.map f).map LoopHandle.hid).Nodup
    have he : (m.handles.map f).map LoopHandle.hid =
        m.handles.map LoopHandle.hid := by
      rw [List.map_map]
      refine List.map_congr_left ?_
      intro a _
      simp [Function.comp, hid_eq a]
    rw [he]
    exact inv.nodupIds
  · intro h hm hr
    obtain ⟨x, hx, rfl⟩ := List.mem_map.mp hm
    rw [user_eq, hid_eq]
    exact inv.registered x hx (run_imp x hr)

/-- The invariant survives `setRunning _ _ false`. -/
theorem mgrInv_setRunning_false (m : ManagerState) (h : ℕ) (inv : MgrInv m) :
    MgrInv (setRunning m h false) := by
  refine mgrInv_map m _ ?_ ?_ ?_ inv <;> intro x <;>
    by_cases hx : x.hid = h <;> simp [hx]

/-- The invariant survives a display-name refresh. -/
theorem mgrInv_setUname (m : ManagerState) (h : ℕ) (n : String)
    (inv : MgrInv m) : MgrInv (setUname m h n) := by
  refine mgrInv_map m _ ?_ ?_ ?_ inv <;> intro x <;>
    by_cases hx : x.hid = h <;> simp [hx]

/-- The invariant survives deleting the registry entry of a user with no
running handle. -/
theorem mgrInv_delReg (m : ManagerState) (u : String) (inv : MgrInv m)
    (hno : ∀ h ∈ m.handles, h.running = true → h.user ≠ u) :
    MgrInv (delReg m u) := by
  refine ⟨inv.bounded, inv.nodupIds, ?_⟩
  intro h hm hr
  show (if h.user = u then none else m.loops h.user) = some h.hid
  rw [if_neg (hno h hm hr)]
  exact inv.registered h hm hr

/-- The invariant survives constructing and registering a fresh running loop
for a user with no running handle. -/
theorem mgrInv_create (m : ManagerState) (u n : String) (inv : MgrInv m)
    (hno : ∀ h ∈ m.handles, h.running = true → h.user ≠ u) :
    MgrInv (createLoop m u n).1 := by
  constructor
  · intro h hm
    rcases List.mem_append.mp hm with h1 | h1
    · exact Nat.lt_succ_of_lt (inv.bounded h h1)
    · rw [List.mem_singleton] at h1
      subst h1
      exact Nat.lt_succ_self _
  · show ((m.handles ++ [LoopHandle.mk m.nextId u n true]).map LoopHandle.hid).Nodup
    rw [List.map_append, List.nodup_append]
    refine ⟨inv.nodupIds, List.nodup_singleton _, ?_⟩
    intro a ha hb
    rw [List.map_singleton, List.mem_singleton] at hb
    obtain ⟨x, hx, rfl⟩ := List.mem_map.mp ha
    have hb' : x.hid = m.nextId := hb
    have hlt := inv.bounded x hx
    rw [hb'] at hlt
    exact lt_irrefl _ hlt
  · intro h hm hr
    rcases List.mem_append.mp hm with h1 | h1
    · show (if h.user = u then some m.nextId else m.loops h.user) = some h.hid
      rw [if_neg (hno h h1 hr)]
      exact inv.registered h h1 hr
    · rw [List.mem_singleton] at h1
      subst h1
      show (if u = u then some m.nextId else m.loops u) = some m.nextId
      rw [if_pos rfl]

/-- Unfolding `get_or_create_loop` when the registered handle is running. -/
theorem get_or_create_eq_running (m : ManagerState) (u n : String) (h : ℕ)
    (hl : m.loops u = some h) (hr : handleRunning m h = true) :
    get_or_create_loop m u n =
      (if n ≠ "" ∧ n ≠ u then setUname m h n else m, h) := by
  unfold get_or_create_loop
  simp only [hl]
  rw [if_pos hr]

/-- Unfolding `get_or_create_loop` when the registered handle has stopped. -/
theorem get_or_create_eq_stale (m : ManagerState) (u n : String) (h : ℕ)
    (hl : m.loops u = some h) (hr : handleRunning m h = false) :
    get_or_create_loop m u n = createLoop (delReg m u) u n := by
  unfold get_or_create_loop
  simp only [hl]
  rw [if_neg (by simp [hr])]

/-- Unfolding `get_or_create_loop` for an unregistered user. -/
theorem get_or_create_eq_new (m : ManagerState) (u n : String)
    (hl : m.loops u = none) :
    get_or_create_loop m u n = createLoop m u n := by
  unfold get_or_create_loop
  simp only [hl]

/-- No running handle belongs to a user whose registered handle has stopped. -/
theorem no_running_of_stale (m : ManagerState) (inv : MgrInv m) (u : String)
    (h : ℕ) (hl : m.loops u = some h) (hr : handleRunning m h = false) :
    ∀ x ∈ m.handles, x.running = true → x.user ≠ u := by
  intro x hx hxr hxu
  have h1 := inv.registered x hx hxr
  rw [hxu, hl] at h1
  have h2 : x.hid = h := by injection h1.symm
  rw [← h2, handleRunning_mem m inv hx, hxr] at hr
  exact Bool.noConfusion hr

/-- Every manager operation preserves the registry invariant. -/
theorem mgrInv_applyOp (m : ManagerState) (op : MgrOp) (inv : MgrInv m) :
    MgrInv (applyOp m op) := by
  cases op with
  | getOrCreate u n =>
    show MgrInv (get_or_create_loop m u n).1
    rcases hl : m.loops u with _ | h0
    · rw [get_or_create_eq_new m u n hl]
      refine mgrInv_create m u n inv ?_
      intro x hx hxr hxu
      have h1 := inv.registered x hx hxr
      rw [hxu, hl] at h1
      exact Option.noConfusion h1
    · by_cases hr : handleRunning m h0 = true
      · rw [get_or_create_eq_running m u n h0 hl hr]
        by_cases hn : n ≠ "" ∧ n ≠ u
        · rw [if_pos hn]
          exact mgrInv_setUname m h0 n inv
        · rw [if_neg hn]
          exact inv
      · rw [get_or_create_eq_stale m u n h0 hl (Bool.not_eq_true _ |>.mp hr)]
        have hno := no_running_of_stale m inv u h0 hl (Bool.not_eq_true _ |>.mp hr)
        exact mgrInv_create (delReg m u) u n (mgrInv_delReg m u inv hno) hno
  | stop u =>
    show MgrInv (stop_loop m u)
    unfold stop_loop
    rcases hl : m.loops u with _ | h0
    · simpa only [] using inv
    · simp only []
      have inv1 := mgrInv_setRunning_false m h0 inv
      refine mgrInv_delReg _ u inv1 ?_
      intro x hx hxr hxu
      obtain ⟨y, hy, rfl⟩ := List.mem_map.mp hx
      by_cases hyh : y.hid = h0
      · rw [if_pos hyh] at hxr
        exact Bool.noConfusion hxr
      · rw [if_neg hyh] at hxr hxu
        have h1 := inv.registered y hy hxr
        rw [hxu, hl] at h1
        have h2 : y.hid = h0 := by injection h1.symm
        exact hyh h2
  | exitTask h =>
    show MgrInv (setRunning m h false)
    exact mgrInv_setRunning_false m h inv

/-- The invariant holds in every reachable manager state. -/
theorem mgrInv_runOps (ops : List MgrOp) : MgrInv (runOps ops) := by
  have H : ∀ (l : List MgrOp) (m : ManagerState), MgrInv m →
      MgrInv (l.foldl applyOp m) := by
    intro l
    induction l with
    | nil => exact fun m hm => hm
    | cons op rest ih => exact fun m hm => ih _ (mgrInv_applyOp m op hm)
  refine H ops ManagerState.init ⟨?_, ?_, ?_⟩
  · intro h hm; exact absurd hm (List.not_mem_nil h)
  · exact List.nodup_nil
  · intro h hm; exact absurd hm (List.not_mem_nil h)

/-- Under the invariant, at most one handle per user is running. -/
theorem runningFor_length_le_one (m : ManagerState) (inv : MgrInv m)
    (u : String) : (runningFor m u).length ≤ 1 := by
  have hnd : ((runningFor m u).map LoopHandle.hid).Nodup :=
    List.Nodup.sublist (List.Sublist.map _ (List.filter_sublist _)) inv.nodupIds
  rcases hl : m.loops u with _ | v
  · have hnil : runningFor m u = [] := by
      refine List.eq_nil_iff_forall_not_mem.mpr ?_
      intro x hx
      have h1 := List.mem_filter.mp hx
      have h2 : x.user = u ∧ x.running = true := by simpa using h1.2
      have h3 := inv.registered x h1.1 h2.2
      rw [h2.1, hl] at h3
      exact Option.noConfusion h3
    rw [hnil]
    exact Nat.zero_le 1
  · have hall : ∀ x ∈ runningFor m u, x.hid = v := by
      intro x hx
      have h1 := List.mem_filter.mp hx
      have h2 : x.user = u ∧ x.running = true := by simpa using h1.2
      have h3 := inv.registered x h1.1 h2.2
      rw [h2.1, hl] at h3
      injection h3.symm
    cases hrf : runningFor m u with
    | nil => exact Nat.zero_le 1
    | cons a t =>
      cases t with
      | nil => exact Nat.le_refl 1
      | cons b t2 =>
        exfalso
        have ha : a ∈ runningFor m u := by rw [hrf]; exact List.mem_cons_self _ _
        have hb : b ∈ runningFor m u := by
          rw [hrf]; exact List.mem_cons_of_mem _ (List.mem_cons_self _ _)
        have h3 := nodup_key_inj hnd a ha b hb (by rw [hall a ha, hall b hb])
        rw [hrf, List.map_cons, List.map_cons, List.nodup_cons] at hnd
        exact hnd.1 (by rw [h3]; exact List.mem_cons_self _ _)

/-- `find?` skips a prefix containing no match. -/
theorem find?_append_none {α : Type} (p : α → Bool) {l₁ l₂ : List α}
    (h : l₁.find? p = none) : (l₁ ++ l₂).find? p = l₂.find? p := by
  induction l₁ with
  | nil => rfl
  | cons a t ih =>
    by_cases hp : p a = true
    · rw [List.find?_cons_of_pos _ hp] at h
      exact Option.noConfusion h
    · rw [List.find?_cons_of_neg _ (by simpa using hp)] at h
      rw [List.cons_append, List.find?_cons_of_neg _ (by simpa using hp)]
      exact ih h

/-- C5: (1) along every sequence of manager operations — get-or-create, stop,
and a loop task exiting on its own — at most one handle per user id is in the
running state; (2) `get_or_create_loop` returns the registered handle when it
is still running, constructing nothing new; (3) when the registered handle has
stopped, it discards that registry entry and constructs, starts and registers
a fresh running loop. -/
theorem c5_at_most_one_loop :
    (∀ (ops : List MgrOp) (u : String),
      (runningFor (runOps ops) u).length ≤ 1) ∧
    (∀ (m : ManagerState) (u n : String) (h : ℕ),
      m.loops u = some h → handleRunning m h = true →
      (get_or_create_loop m u n).2 = h ∧
      ((get_or_create_loop m u n).1).handles.map LoopHandle.hid =
        m.handles.map LoopHandle.hid) ∧
    (∀ (m : ManagerState) (u n : String) (h : ℕ), MgrInv m →
      m.loops u = some h → handleRunning m h = false →
      (get_or_create_loop m u n).2 = m.nextId ∧
      ((get_or_create_loop m u n).1).loops u = some m.nextId ∧
      handleRunning ((get_or_create_loop m u n).1) m.nextId = true) := by
  refine ⟨?_, ?_, ?_⟩
  · intro ops u
    exact runningFor_length_le_one (runOps ops) (mgrInv_runOps ops) u
  · intro m u n h hl hr
    rw [get_or_create_eq_running m u n h hl hr]
    refine ⟨rfl, ?_⟩
    by_cases hn : n ≠ "" ∧ n ≠ u
    · rw [if_pos hn]
      show ((m.handles.map _).map LoopHandle.hid) = _
      rw [List.map_map]
      refine List.map_congr_left ?_
      intro a _
      by_cases ha : a.hid = h <;> simp [Function.comp, setUname, ha]
    · rw [if_neg hn]
  · intro m u n h inv hl hr
    rw [get_or_create_eq_stale m u n h hl hr]
    refine ⟨rfl, ?_, ?_⟩
    · show (if u = u then some m.nextId else (delReg m u).loops u) = some m.nextId
      rw [if_pos rfl]
    · show handleRunning _ m.nextId = true
      unfold handleRunning
      have hnone : (delReg m u).handles.find? (fun x => x.hid = m.nextId) = none := by
        refine List.find?_eq_none.mpr ?_
        intro x hx
        simp only [decide_eq_true_eq]
        exact Nat.ne_of_lt (inv.bounded x hx)
      show (match ((delReg m u).handles ++
          [LoopHandle.mk (delReg m u).nextId u n true]).find?
          (fun x => x.hid = m.nextId) with
        | some x => x.running
        | none => false) = true
      rw [find?_append_none _ hnone]
      rw [List.find?_cons_of_pos _ (by simp [delReg])]

/-- C5 witness: a run with a restart after the loop task exits, plus the two
`get_or_create_loop` behaviours on concrete states. -/
theorem c5_at_most_one_loop_witness :
    (runningFor (runOps [MgrOp.getOrCreate "alice" "A", MgrOp.exitTask 0,
      MgrOp.getOrCreate "alice" "A", MgrOp.stop "alice"]) "alice").length ≤ 1 ∧
    (get_or_create_loop (runOps [MgrOp.getOrCreate "alice" "A"]) "alice" "A").2 = 0 ∧
    (get_or_create_loop (runOps [MgrOp.getOrCreate "alice" "A",
      MgrOp.exitTask 0]) "alice" "A").2 =
      (runOps [MgrOp.getOrCreate "alice" "A", MgrOp.exitTask 0]).nextId := by
  refine ⟨c5_at_most_one_loop.1 _ "alice", ?_, ?_⟩
  · exact (c5_at_most_one_loop.2.1 (runOps [MgrOp.getOrCreate "alice" "A"])
      "alice" "A" 0 rfl rfl).1
  · refine (c5_at_most_one_loop.2.2
      (runOps [MgrOp.getOrCreate "alice" "A", MgrOp.exitTask 0])
      "alice" "A" 0 ?_ rfl rfl).1
    exact mgrInv_runOps [MgrOp.getOrCreate "alice" "A", MgrOp.exitTask 0]

/- ## C6: planner failure semantics -/

/-- Binding an `Except.ok` value just applies the continuation. -/
theorem except_bind_ok {α β : Type} (a : α) (f : α → Except String β) :
    (Except.ok a >>= f) = f a := rfl

/-- A chat-entry list with no malformed element maps cleanly to its messages. -/
theorem mapEntries_ok (l : List ChatEntry)
    (h : ∀ e ∈ l, e ≠ ChatEntry.malformed) :
    ∃ ms, mapEntries l = Except.ok ms := by
  induction l with
  | nil => exact ⟨[], rfl⟩
  | cons e rest ih =>
    obtain ⟨ms, hms⟩ := ih (fun x hx => h x (List.mem_cons_of_mem e hx))
    cases e with
    | ok m =>
      refine ⟨m :: ms, ?_⟩
      simp only [mapEntries, entryFields, hms]
      rfl
    | malformed => exact absurd rfl (h ChatEntry.malformed (List.mem_cons_self _ _))

/-- When neither the history nor the unprocessed list holds a malformed
element, `_get_chat_history_text` returns normally. -/
theorem get_chat_history_text_ok (env : FmtEnv) (uname : String)
    (ch unp : List ChatEntry) (n : ℕ)
    (hh : ∀ e ∈ ch, e ≠ ChatEntry.malformed)
    (hu : ∀ e ∈ unp, e ≠ ChatEntry.malformed) :
    ∃ t, get_chat_history_text env uname ch unp n = Except.ok t := by
  obtain ⟨ms1, h1⟩ := mapEntries_ok (takeLast 30 ch)
    (fun e he => hh e (List.mem_of_mem_drop he))
  obtain ⟨ms2, h2⟩ := mapEntries_ok ch hh
  obtain ⟨ms3, h3⟩ := mapEntries_ok unp hu
  unfold get_chat_history_text
  simp only [h1, h2, h3]
  by_cases hc : n > 0 ∧ unp ≠ []
  · rw [if_pos hc]
    split
    · exact ⟨_, rfl⟩
    · exact ⟨_, rfl⟩
  · rw [if_neg hc]
    exact ⟨_, rfl⟩

/-- A session whose chat history holds one element that is not a dict. -/
def badPlanSession : PlanSession :=
  { chat_history := [ChatEntry.malformed]
    unprocessed_messages := []
    new_messages_count := 0
    goal_list := []
    knowledge_list := []
    done_action := []
    last_successful_reply_action := none
    last_bot_speak_time := none
    last_user_speak_time := none }

/-- A session with empty, well-formed history. -/
def emptyPlanSession : PlanSession :=
  { chat_history := []
    unprocessed_messages := []
    new_messages_count := 0
    goal_list := []
    knowledge_list := []
    done_action := []
    last_successful_reply_action := none
    last_bot_speak_time := none
    last_user_speak_time := none }

/-- C6 (counterexample): the claim says any exception during prompt
construction is caught and converted to a `wait` action, but the
`_get_chat_history_text` call happens before `plan`'s `try` block: one
malformed chat-history element makes `plan` raise `AttributeError` even though
the LLM behaves normally. -/
theorem c6_counterexample :
    ActionPlanner.plan witEnv badPlanSession "用户"
      (PlanLlmBehavior.output (some (some "wait", some "ok")))
      EndLlmBehavior.unavailable =
      Except.error "AttributeError: chat history element is not a dict" := rfl

/-- C6 (amended): provided every chat-history and unprocessed element is a
dict — so prompt construction cannot raise — `plan` never raises: each
modelled failure of the LLM call itself (no model, failed call, exception
during the call or result processing, unparseable output) is converted to a
returned `wait` action with a describing reason, and every parsed output also
yields a normal return. -/
theorem c6_planner_fail_closed_amended (env : FmtEnv) (s : PlanSession)
    (uname : String) (endLlm : EndLlmBehavior)
    (hh : ∀ e ∈ s.chat_history, e ≠ ChatEntry.malformed)
    (hu : ∀ e ∈ s.unprocessed_messages, e ≠ ChatEntry.malformed) :
    ActionPlanner.plan env s uname PlanLlmBehavior.noModel endLlm =
      Except.ok ("wait", "未找到模型配置") ∧
    ActionPlanner.plan env s uname PlanLlmBehavior.callFailed endLlm =
      Except.ok ("wait", "LLM 调用失败") ∧
    (∀ e, ActionPlanner.plan env s uname (PlanLlmBehavior.raisedDuringCall e) endLlm =
      Except.ok ("wait", "行动规划处理中发生错误，暂时等待: " ++ e)) ∧
    ActionPlanner.plan env s uname (PlanLlmBehavior.output none) endLlm =
      Except.ok ("wait", "wait") ∧
    ∀ parsed, ∃ out,
      ActionPlanner.plan env s uname (PlanLlmBehavior.output parsed) endLlm =
        Except.ok out := by
  obtain ⟨t, ht⟩ := get_chat_history_text_ok env uname s.chat_history
    s.unprocessed_messages s.new_messages_count hh hu
  refine ⟨?_, ?_, ?_, ?_, ?_⟩
  · unfold ActionPlanner.plan
    rw [ht, except_bind_ok]
    rfl
  · unfold ActionPlanner.plan
    rw [ht, except_bind_ok]
    rfl
  · intro e
    unfold ActionPlanner.plan
    rw [ht, except_bind_ok]
    rfl
  · unfold ActionPlanner.plan
    rw [ht, except_bind_ok]
    rfl
  · intro parsed
    unfold ActionPlanner.plan
    rw [ht]
    simp only [except_bind_ok]
    rcases parsed with _ | ⟨a, r⟩
    · exact ⟨_, rfl⟩
    · dsimp only
      repeat' split
      all_goals exact ⟨_, rfl⟩

/-- C6 witness: on an empty well-formed session the amended theorem yields the
concrete `wait` returns for the no-model and failed-call behaviours. -/
theorem c6_planner_fail_closed_amended_witness :
    ActionPlanner.plan witEnv emptyPlanSession "用户" PlanLlmBehavior.noModel
      EndLlmBehavior.unavailable = Except.ok ("wait", "未找到模型配置") ∧
    ActionPlanner.plan witEnv emptyPlanSession "用户" PlanLlmBehavior.callFailed
      EndLlmBehavior.unavailable = Except.ok ("wait", "LLM 调用失败") := by
  have h := c6_planner_fail_closed_amended witEnv emptyPlanSession "用户"
    EndLlmBehavior.unavailable (fun e he => absurd he (List.not_mem_nil e))
    (fun e he => absurd he (List.not_mem_nil e))
  exact ⟨h.1, h.2.1⟩

end PFC
